import Mathlib

/-!
Verification of the VRF caching and reconciliation core of the ndfc Ansible
collection, shallowly embedded in Lean 4.

The embedding follows the Python sources under
`plugins/module_utils/common/cache/` (TTL cache store, cache manager,
cached resource service) and `plugins/module_utils/vrf/` (API clients and the
five state handlers).  Python `None` stored in a cache slot is modelled as
`Option.none`; time is a natural number; Python `datetime.now()` becomes an
explicit `now : Nat` argument threaded through every call.  Python truthiness
of `Optional[int]` (both `None` and `0` are falsy) is modelled by `pyOrTTL`.
-/

namespace Ndfc

/-- Structured cache key (cache_key.py): immutable triple of resource type,
fabric, and identifier. -/
structure CacheKey where
  resource_type : String
  fabric : String
  identifier : String
deriving DecidableEq, Repr

/-- Cache entry (cache_entry.py): payload with a creation timestamp and an
optional TTL.  `data` is `Option V` because Python call sites may store
`None` in a cache slot (e.g. a fetch that found nothing). -/
structure CacheEntry (V : Type) where
  data : Option V
  timestamp : Nat
  ttl_seconds : Option Nat
deriving DecidableEq, Repr

/-- `CacheEntry.is_expired` (cache_entry.py): true iff a TTL is set and
`now > timestamp + ttl_seconds`; entries without a TTL never expire. -/
def CacheEntry.is_expired {V : Type} (e : CacheEntry V) (now : Nat) : Bool :=
  match e.ttl_seconds with
  | none => false
  | some t => decide (now > e.timestamp + t)

/-- Python `x or y` on `Optional[int]` values: `None` and `0` are both falsy
and fall through to `y`.  This appears as `ttl_seconds or self._default_ttl`
in memory_cache.py and cache_manager.py. -/
def pyOrTTL (x d : Option Nat) : Option Nat :=
  match x with
  | none => d
  | some t => if t = 0 then d else some t

/-- First binding of `k` in an association list (the dict lookup of
memory_cache.py; bindings are unique by construction of `set`). -/
def assocFind {V : Type} : List (CacheKey × CacheEntry V) → CacheKey → Option (CacheEntry V)
  | [], _ => none
  | (k', e) :: rest, k => if k' = k then some e else assocFind rest k

/-- Remove every binding of `k` (dict deletion / overwrite support). -/
def assocErase {V : Type} : List (CacheKey × CacheEntry V) → CacheKey → List (CacheKey × CacheEntry V)
  | [], _ => []
  | (k', e) :: rest, k =>
    if k' = k then assocErase rest k else (k', e) :: assocErase rest k

/-- In-memory TTL cache store (memory_cache.py): a map from `CacheKey` to
`CacheEntry` plus the store-level default TTL. -/
structure MemoryCache (V : Type) where
  cache : List (CacheKey × CacheEntry V)
  default_ttl : Option Nat
deriving DecidableEq, Repr

namespace MemoryCache

variable {V : Type}

/-- `_cleanup_expired` (memory_cache.py): drop every currently expired
entry. -/
def cleanup_expired (c : MemoryCache V) (now : Nat) : MemoryCache V :=
  { c with cache := c.cache.filter (fun p => ! p.2.is_expired now) }

/-- `MemoryCache.get`: sweep expired entries, then return the live value
(or the stored `None`); an expired addressed entry is deleted as a side
effect.  Returns the Python return value together with the mutated store. -/
def get (c : MemoryCache V) (key : CacheKey) (now : Nat) : Option V × MemoryCache V :=
  let c1 := c.cleanup_expired now
  match assocFind c1.cache key with
  | some e =>
    if e.is_expired now then (none, { c1 with cache := assocErase c1.cache key })
    else (e.data, c1)
  | none => (none, c1)

/-- `MemoryCache.set`: insert or overwrite an entry stamped `now`, with the
TTL argument falling back (Python `or`) to the store default. -/
def set (c : MemoryCache V) (key : CacheKey) (v : Option V) (ttl_seconds : Option Nat)
    (now : Nat) : MemoryCache V :=
  { c with cache := (key, ⟨v, now, pyOrTTL ttl_seconds c.default_ttl⟩) :: assocErase c.cache key }

/-- `MemoryCache.delete`: remove if present, no error if absent. -/
def delete (c : MemoryCache V) (key : CacheKey) : MemoryCache V :=
  { c with cache := assocErase c.cache key }

/-- `MemoryCache.get_bulk`: sweep, then return every live entry whose key
matches `(resource_type, fabric, _)`, keyed by identifier. -/
def get_bulk (c : MemoryCache V) (fabric resource_type : String) (now : Nat) :
    List (String × Option V) × MemoryCache V :=
  let c1 := c.cleanup_expired now
  (c1.cache.filterMap (fun p =>
      if p.1.fabric = fabric ∧ p.1.resource_type = resource_type ∧ ¬ p.2.is_expired now
      then some (p.1.identifier, p.2.data) else none),
   c1)

/-- `MemoryCache.set_bulk`: one entry per identifier, all stamped with the
same `now` and the same resolved TTL. -/
def set_bulk (c : MemoryCache V) (fabric resource_type : String)
    (data : List (String × Option V)) (ttl_seconds : Option Nat) (now : Nat) : MemoryCache V :=
  data.foldl (fun acc p =>
    { acc with cache :=
        (⟨resource_type, fabric, p.1⟩, ⟨p.2, now, pyOrTTL ttl_seconds acc.default_ttl⟩)
          :: assocErase acc.cache ⟨resource_type, fabric, p.1⟩ }) c

end MemoryCache

/-- Cache manager (cache_manager.py): a `MemoryCache` plus the manager-level
default TTL.  In the default construction (`CacheManager(default_ttl_seconds=300)`)
the store is built with the same default, so the two defaults agree. -/
structure CacheManager (V : Type) where
  cache : MemoryCache V
  default_ttl : Option Nat
deriving DecidableEq, Repr

/-- Result of an instrumented `get_or_fetch`: the returned value (or the
propagated exception of `fetch_func`), the resulting manager state, and how
many times `fetch_func` was invoked. -/
structure FetchOut (V : Type) where
  value : Except String (Option V)
  mgr : CacheManager V
  fetchCalls : Nat
deriving Repr

/-- Result of an instrumented `get_bulk_or_fetch`. -/
structure BulkOut (V : Type) where
  value : List (String × Option V)
  mgr : CacheManager V
  fetchCalls : Nat
deriving Repr

namespace CacheManager

variable {V : Type}

/-- `CacheManager.get_or_fetch` (cache_manager.py): try the cache first
(`is not None` check); on miss call `fetch_func` once and cache the result
with `ttl_seconds or self._default_ttl`.  A raising `fetch_func` is modelled
as an `Except.error` outcome, which propagates with nothing written. -/
def get_or_fetch (m : CacheManager V) (key : CacheKey)
    (fetch_func : Except String (Option V)) (ttl_seconds : Option Nat) (now : Nat) :
    FetchOut V :=
  match m.cache.get key now with
  | (some v, c1) => ⟨.ok (some v), { m with cache := c1 }, 0⟩
  | (none, c1) =>
    match fetch_func with
    | .error e => ⟨.error e, { m with cache := c1 }, 1⟩
    | .ok v => ⟨.ok v, { m with cache := c1.set key v (pyOrTTL ttl_seconds m.default_ttl) now }, 1⟩

/-- `CacheManager.get_bulk_or_fetch`: if any cached entries exist for
`(fabric, resource_type)` return them as-is; otherwise fetch once and cache
the full mapping.  `fetch_func` is the bulk fetch result (identifier to
value, values never `None` at the fetch site). -/
def get_bulk_or_fetch (m : CacheManager V) (fabric resource_type : String)
    (fetch_func : List (String × V)) (ttl_seconds : Option Nat) (now : Nat) : BulkOut V :=
  match m.cache.get_bulk fabric resource_type now with
  | (cached, c1) =>
    if cached.isEmpty then
      let allData := fetch_func.map (fun p => (p.1, some p.2))
      ⟨allData,
       { m with cache := c1.set_bulk fabric resource_type allData (pyOrTTL ttl_seconds m.default_ttl) now },
       1⟩
    else ⟨cached, { m with cache := c1 }, 0⟩

/-- `CacheManager.update_cache`: direct write-through after a successful
mutation. -/
def update_cache (m : CacheManager V) (key : CacheKey) (v : Option V)
    (ttl_seconds : Option Nat) (now : Nat) : CacheManager V :=
  { m with cache := m.cache.set key v (pyOrTTL ttl_seconds m.default_ttl) now }

/-- `CacheManager.remove_from_cache`: remove after a successful delete. -/
def remove_from_cache (m : CacheManager V) (key : CacheKey) : CacheManager V :=
  { m with cache := m.cache.delete key }

end CacheManager

/-- `CachedResourceService.get_cached` (cached_resource_service.py):
the manager call with the resource kind curried into the key. -/
def CachedResourceService.get_cached {V : Type} (m : CacheManager V)
    (resource_type fabric identifier : String) (fetch_func : Except String (Option V))
    (ttl_seconds : Option Nat) (now : Nat) : FetchOut V :=
  m.get_or_fetch ⟨resource_type, fabric, identifier⟩ fetch_func ttl_seconds now

/-- `CachedResourceService.exists_cached`: `get_cached` with no explicit TTL,
then `(resource is not None, resource)`. -/
def CachedResourceService.exists_cached {V : Type} (m : CacheManager V)
    (resource_type fabric identifier : String) (fetch_func : Except String (Option V))
    (now : Nat) : Except String (Bool × Option V) × CacheManager V × Nat :=
  let o := CachedResourceService.get_cached m resource_type fabric identifier fetch_func none now
  match o.value with
  | .ok r => (.ok (r.isSome, r), o.mgr, o.fetchCalls)
  | .error e => (.error e, o.mgr, o.fetchCalls)

/-! ### Support lemmas for the cache layer -/

theorem assocFind_some_mem {V : Type} {l : List (CacheKey × CacheEntry V)} {k : CacheKey}
    {e : CacheEntry V} (h : assocFind l k = some e) : (k, e) ∈ l := by
  induction l with
  | nil => simp [assocFind] at h
  | cons p rest ih =>
    obtain ⟨k', e'⟩ := p
    by_cases hk : k' = k
    · subst hk
      simp [assocFind] at h
      subst h
      exact List.mem_cons_self _ _
    · simp [assocFind, hk] at h
      exact List.mem_cons_of_mem _ (ih h)

theorem assocErase_key_ne {V : Type} {l : List (CacheKey × CacheEntry V)} {k : CacheKey}
    {p : CacheKey × CacheEntry V} (h : p ∈ assocErase l k) : p.1 ≠ k := by
  induction l with
  | nil => simp [assocErase] at h
  | cons q rest ih =>
    obtain ⟨k', e'⟩ := q
    by_cases hk : k' = k
    · simp [assocErase, hk] at h
      exact ih h
    · simp [assocErase, hk] at h
      rcases h with h | h
      · subst h; exact hk
      · exact ih h

theorem pyOrTTL_idem (x d : Option Nat) : pyOrTTL (pyOrTTL x d) d = pyOrTTL x d := by
  cases x with
  | none =>
    cases d with
    | none => rfl
    | some s =>
      by_cases hs : s = 0 <;> simp [pyOrTTL, hs]
  | some t =>
    by_cases ht : t = 0
    · subst ht
      cases d with
      | none => rfl
      | some s => by_cases hs : s = 0 <;> simp [pyOrTTL, hs]
    · simp [pyOrTTL, ht]

theorem MemoryCache.get_default_ttl {V : Type} (c : MemoryCache V) (key : CacheKey) (now : Nat) :
    (c.get key now).2.default_ttl = c.default_ttl := by
  cases h : assocFind (c.cleanup_expired now).cache key with
  | none =>
    simp only [MemoryCache.cleanup_expired] at h
    simp [MemoryCache.get, MemoryCache.cleanup_expired, h]
  | some e =>
    simp only [MemoryCache.cleanup_expired] at h
    by_cases he : e.is_expired now = true <;>
      simp [MemoryCache.get, MemoryCache.cleanup_expired, h, he]

/-- If every binding of `key` in the store holds data `none`, then `get`
returns `none` for that key. -/
theorem MemoryCache.get_none_of_data_none {V : Type} (c : MemoryCache V) (key : CacheKey)
    (now : Nat) (h : ∀ p ∈ c.cache, p.1 = key → p.2.data = none) :
    (c.get key now).1 = none := by
  cases hf : assocFind (c.cleanup_expired now).cache key with
  | none =>
    simp only [MemoryCache.cleanup_expired] at hf
    simp [MemoryCache.get, MemoryCache.cleanup_expired, hf]
  | some e =>
    have hmem : (key, e) ∈ (c.cleanup_expired now).cache := assocFind_some_mem hf
    have hmem' : (key, e) ∈ c.cache := by
      have := hmem
      simp [MemoryCache.cleanup_expired, List.mem_filter] at this
      exact this.1
    have hd : e.data = none := h (key, e) hmem' rfl
    simp only [MemoryCache.cleanup_expired] at hf
    by_cases he : e.is_expired now = true <;>
      simp [MemoryCache.get, MemoryCache.cleanup_expired, hf, he, hd]

theorem assocFind_set_self {V : Type} (c : MemoryCache V) (key : CacheKey) (v : Option V)
    (ttl : Option Nat) (now : Nat) :
    assocFind (c.set key v ttl now).cache key = some ⟨v, now, pyOrTTL ttl c.default_ttl⟩ := by
  simp [MemoryCache.set, assocFind]

theorem set_data_none_all {V : Type} (c : MemoryCache V) (key : CacheKey) (ttl : Option Nat)
    (now : Nat) : ∀ p ∈ (c.set key none ttl now).cache, p.1 = key → p.2.data = none := by
  intro p hp hk
  simp only [MemoryCache.set, List.mem_cons] at hp
  rcases hp with h | h
  · subst h; rfl
  · exact absurd hk (assocErase_key_ne h)

/-- On a read miss, `get_or_fetch` invokes the fetch function (exactly one
call site in the source). -/
theorem get_or_fetch_fetchCalls_of_miss {V : Type} (m : CacheManager V) (key : CacheKey)
    (fetch_func : Except String (Option V)) (ttl_seconds : Option Nat) (now : Nat)
    (h : (m.cache.get key now).1 = none) :
    (m.get_or_fetch key fetch_func ttl_seconds now).fetchCalls = 1 := by
  cases hg : m.cache.get key now with
  | mk a b =>
    rw [hg] at h
    simp only at h
    subst h
    cases fetch_func <;> simp [CacheManager.get_or_fetch, hg]

/-- On a read miss with a non-raising fetch, `get_or_fetch` returns exactly
the fetched value. -/
theorem get_or_fetch_value_of_miss {V : Type} (m : CacheManager V) (key : CacheKey)
    (v : Option V) (ttl_seconds : Option Nat) (now : Nat)
    (h : (m.cache.get key now).1 = none) :
    (m.get_or_fetch key (.ok v) ttl_seconds now).value = .ok v := by
  cases hg : m.cache.get key now with
  | mk a b =>
    rw [hg] at h
    simp only at h
    subst h
    simp [CacheManager.get_or_fetch, hg]

/-! ### Claim C3 -/

/-- C3 counterexample: `get_or_fetch` with an explicit `ttl_seconds = 0` does
NOT store the result under the explicit TTL.  Because Python `0` is falsy,
`ttl_seconds or self._default_ttl` resolves to the manager default (300
here), so the stored entry carries TTL 300 rather than the explicit 0 the
claim requires. -/
theorem c3_explicit_ttl_zero_ignored :
    ((({ cache := { cache := [], default_ttl := some 300 }, default_ttl := some 300 } :
          CacheManager Nat).get_or_fetch ⟨"vrf", "f1", "v1"⟩ (.ok (some 7)) (some 0) 0).mgr.cache.cache
        = [(⟨"vrf", "f1", "v1"⟩, ⟨some 7, 0, some 300⟩)])
      ∧ (some 300 : Option Nat) ≠ some 0 := by
  decide

/-- C3 (amended): on a hit `get_or_fetch` returns the cached value with zero
fetch invocations; on a miss it calls the fetch function exactly once,
stores the result under the resolved TTL — the explicit `ttl_seconds` when
nonzero, else the manager default (manager and store defaults agreeing, as
in the default construction) — and returns it; a raising fetch propagates
and nothing is written to the cache beyond the read-path expiry sweep. -/
theorem c3_get_or_fetch_contract {V : Type} (m : CacheManager V) (key : CacheKey)
    (fetch_func : Except String (Option V)) (ttl_seconds : Option Nat) (now : Nat)
    (hd : m.cache.default_ttl = m.default_ttl) :
    (∀ v c1, m.cache.get key now = (some v, c1) →
        (m.get_or_fetch key fetch_func ttl_seconds now).value = .ok (some v) ∧
        (m.get_or_fetch key fetch_func ttl_seconds now).fetchCalls = 0) ∧
    (∀ c1 v, m.cache.get key now = (none, c1) → fetch_func = .ok v →
        (m.get_or_fetch key fetch_func ttl_seconds now).fetchCalls = 1 ∧
        (m.get_or_fetch key fetch_func ttl_seconds now).value = .ok v ∧
        assocFind (m.get_or_fetch key fetch_func ttl_seconds now).mgr.cache.cache key =
          some ⟨v, now, pyOrTTL ttl_seconds m.default_ttl⟩) ∧
    (∀ c1 e, m.cache.get key now = (none, c1) → fetch_func = .error e →
        (m.get_or_fetch key fetch_func ttl_seconds now).value = .error e ∧
        (m.get_or_fetch key fetch_func ttl_seconds now).fetchCalls = 1 ∧
        (m.get_or_fetch key fetch_func ttl_seconds now).mgr.cache = c1) := by
  refine ⟨?_, ?_, ?_⟩
  · intro v c1 hg
    simp [CacheManager.get_or_fetch, hg]
  · intro c1 v hg hf
    subst hf
    have hc1 : c1.default_ttl = m.default_ttl := by
      have := MemoryCache.get_default_ttl m.cache key now
      rw [hg] at this
      simpa [hd] using this
    refine ⟨?_, ?_, ?_⟩
    · simp [CacheManager.get_or_fetch, hg]
    · simp [CacheManager.get_or_fetch, hg]
    · simp only [CacheManager.get_or_fetch, hg]
      rw [assocFind_set_self, hc1, pyOrTTL_idem]
  · intro c1 e hg hf
    subst hf
    refine ⟨?_, ?_, ?_⟩ <;> simp [CacheManager.get_or_fetch, hg]

/-- Witness for C3 (amended): miss on an empty cache with default TTL 300;
the fetch runs once, its value is returned, and the entry is stored under
the manager default. -/
theorem c3_get_or_fetch_contract_witness :
    ((({ cache := { cache := [], default_ttl := some 300 }, default_ttl := some 300 } :
          CacheManager Nat).get_or_fetch ⟨"vrf", "f1", "v1"⟩ (.ok (some 5)) none 0).fetchCalls = 1) ∧
    ((({ cache := { cache := [], default_ttl := some 300 }, default_ttl := some 300 } :
          CacheManager Nat).get_or_fetch ⟨"vrf", "f1", "v1"⟩ (.ok (some 5)) none 0).value
        = .ok (some 5)) := by
  have h := c3_get_or_fetch_contract
    ({ cache := { cache := [], default_ttl := some 300 }, default_ttl := some 300 } :
      CacheManager Nat) ⟨"vrf", "f1", "v1"⟩ (.ok (some 5)) none 0 rfl
  have h2 := h.2.1 { cache := [], default_ttl := some 300 } (some 5) (by decide) rfl
  exact ⟨h2.1, h2.2.1⟩

/-! ### Claim C6 -/

/-- C6 counterexample: `set` with `ttl_seconds=None` on a store whose
default TTL is 1 second stamps the entry with the store default (the
fallback the claim itself acknowledges), so the passive sweep evicts it:
`get` two seconds later returns absent, not the stored value 5. -/
theorem c6_store_default_evicts :
    ((((⟨[], some 1⟩ : MemoryCache Nat).set ⟨"vrf", "f1", "v1"⟩ (some 5) none 0).get
        ⟨"vrf", "f1", "v1"⟩ 2).1 = none)
      ∧ (none : Option Nat) ≠ some 5 := by
  decide

/-- C6 (amended): an entry created by `set` with `ttl_seconds=None` in a
store whose default TTL is also unset is never evicted by the passive
sweep: a `get` of its key at ANY later time returns the stored value, and
the entry is still present afterwards.  (When the store default is set, the
entry inherits it and is evicted once that much time elapses, as the
counterexample shows.) -/
theorem c6_no_ttl_entry_permanent {V : Type} (c : MemoryCache V) (key : CacheKey)
    (v : Option V) (t0 t : Nat) (hd : c.default_ttl = none) :
    (((c.set key v none t0).get key t).1 = v) ∧
    (assocFind (((c.set key v none t0).get key t).2).cache key = some ⟨v, t0, none⟩) := by
  constructor <;>
    simp [MemoryCache.set, MemoryCache.get, MemoryCache.cleanup_expired, CacheEntry.is_expired,
      pyOrTTL, assocFind, hd]

/-- Witness for C6 (amended): concrete no-default store, read back a million
ticks later. -/
theorem c6_no_ttl_entry_permanent_witness :
    ((((⟨[], none⟩ : MemoryCache Nat).set ⟨"vrf", "f1", "v1"⟩ (some 3) none 0).get
        ⟨"vrf", "f1", "v1"⟩ 1000000).1 = some 3) :=
  (c6_no_ttl_entry_permanent (⟨[], none⟩ : MemoryCache Nat) ⟨"vrf", "f1", "v1"⟩ (some 3) 0
    1000000 rfl).1

/-! ### Claim C9 -/

/-- C9: when the fetch function reports the resource absent (`None`),
`get_or_fetch` writes the `None` into the store but never serves it as a
hit: the write happens (an entry with data `none` is bound to the key),
yet every subsequent `get_or_fetch` of that key invokes its fetch function
again, and `exists_cached` on the absent resource reports
`(false, none)` while fetching afresh. -/
theorem c9_none_result_never_a_hit {V : Type} (m : CacheManager V) (key : CacheKey)
    (ttl_seconds : Option Nat) (now : Nat)
    (hmiss : (m.cache.get key now).1 = none) :
    ((m.get_or_fetch key (.ok none) ttl_seconds now).fetchCalls = 1) ∧
    ((m.get_or_fetch key (.ok none) ttl_seconds now).value = .ok none) ∧
    (∃ e, assocFind (m.get_or_fetch key (.ok none) ttl_seconds now).mgr.cache.cache key = some e
        ∧ e.data = none) ∧
    (∀ (fetch2 : Except String (Option V)) (ttl2 : Option Nat) (now2 : Nat),
        ((m.get_or_fetch key (.ok none) ttl_seconds now).mgr.get_or_fetch key fetch2 ttl2
          now2).fetchCalls = 1) ∧
    (∀ now2 : Nat,
        (CachedResourceService.exists_cached
          (m.get_or_fetch key (.ok none) ttl_seconds now).mgr
          key.resource_type key.fabric key.identifier (.ok none) now2).1 = .ok (false, none)) := by
  cases hg : m.cache.get key now with
  | mk a b =>
    rw [hg] at hmiss
    simp only at hmiss
    subst hmiss
    have hset : (m.get_or_fetch key (.ok none) ttl_seconds now).mgr.cache
        = b.set key none (pyOrTTL ttl_seconds m.default_ttl) now := by
      simp [CacheManager.get_or_fetch, hg]
    have hnone : ∀ now2 : Nat,
        (((m.get_or_fetch key (.ok none) ttl_seconds now).mgr).cache.get key now2).1 = none := by
      intro now2
      rw [hset]
      exact MemoryCache.get_none_of_data_none _ _ _ (set_data_none_all b key _ now)
    refine ⟨?_, ?_, ?_, ?_, ?_⟩
    · simp [CacheManager.get_or_fetch, hg]
    · simp [CacheManager.get_or_fetch, hg]
    · refine ⟨⟨none, now, pyOrTTL (pyOrTTL ttl_seconds m.default_ttl) b.default_ttl⟩, ?_, rfl⟩
      rw [hset]
      exact assocFind_set_self b key none _ now
    · intro fetch2 ttl2 now2
      exact get_or_fetch_fetchCalls_of_miss _ key fetch2 ttl2 now2 (hnone now2)
    · intro now2
      have hv := get_or_fetch_value_of_miss
        (m.get_or_fetch key (.ok none) ttl_seconds now).mgr key none none now2 (hnone now2)
      simp only [CachedResourceService.exists_cached, CachedResourceService.get_cached]
      rw [hv]
      rfl

/-- Witness for C9: an empty cache, fetch reporting absence. -/
theorem c9_none_result_never_a_hit_witness :
    ((({ cache := { cache := [], default_ttl := some 300 }, default_ttl := some 300 } :
        CacheManager Nat).get_or_fetch ⟨"vrf", "f1", "v1"⟩ (.ok none) none 0).fetchCalls = 1) ∧
    (∀ now2 : Nat,
        ((({ cache := { cache := [], default_ttl := some 300 }, default_ttl := some 300 } :
            CacheManager Nat).get_or_fetch ⟨"vrf", "f1", "v1"⟩ (.ok none) none 0).mgr.get_or_fetch
          ⟨"vrf", "f1", "v1"⟩ (.ok (some 9)) none now2).fetchCalls = 1) := by
  have h := c9_none_result_never_a_hit
    ({ cache := { cache := [], default_ttl := some 300 }, default_ttl := some 300 } :
      CacheManager Nat) ⟨"vrf", "f1", "v1"⟩ none 0 (by decide)
  exact ⟨h.1, fun now2 => h.2.2.2.1 (.ok (some 9)) none now2⟩

/-! ### VRF data model (vrf_config.py, vrf_payload.py, vrf_data.py)

Only the fields that the reconciliation engine compares and keys on are
modelled; the Pydantic JSON glue (template-config serialization, wire
field-name aliases) is the out-of-scope data-mapping layer, so
`vrf_template_config` is carried as the already-serialized string. -/

/-- A VRF record as observed from the controller (the cached dict of the v1
API / the `VrfData` model of the v2 API), restricted to the fields the
state handlers compare.  Every field is optional, as in the source. -/
structure VrfData where
  vrfName : Option String
  vrfId : Option Nat
  vrfTemplate : Option String
  vrfTemplateConfig : Option String
  vrfExtensionTemplate : Option String
deriving DecidableEq, Repr

/-- Desired configuration from the playbook (vrf_config.py). -/
structure VrfConfig where
  fabric : String
  vrf_name : String
  vrf_id : Nat
  vrf_template : String
  vrf_template_config : String
  vrf_extension_template : String
deriving DecidableEq, Repr

/-- API payload (vrf_payload.py). -/
structure VrfPayload where
  fabric : String
  vrf_name : String
  vrf_id : Nat
  vrf_template : String
  vrf_template_config : String
  vrf_extension_template : String
deriving DecidableEq, Repr

/-- `VrfConfig.to_payload` (vrf_config.py). -/
def VrfConfig.to_payload (c : VrfConfig) : VrfPayload :=
  ⟨c.fabric, c.vrf_name, c.vrf_id, c.vrf_template, c.vrf_template_config,
   c.vrf_extension_template⟩

/-- The VRF record a successful create/update leaves on the controller and
echoes back in the response (the data the API clients write into the
cache). -/
def payloadData (p : VrfPayload) : VrfData :=
  ⟨some p.vrf_name, some p.vrf_id, some p.vrf_template, some p.vrf_template_config,
   some p.vrf_extension_template⟩

/-- `BaseState._vrfs_equal` (base_state.py): field-level comparison of the
current dict against the desired payload.  A missing dict field (`None`)
never equals the payload's concrete value, as in Python. -/
def vrfs_equal (current : VrfData) (desired : VrfConfig) : Bool :=
  let p := desired.to_payload
  decide (current.vrfName = some p.vrf_name) &&
  decide (current.vrfId = some p.vrf_id) &&
  decide (current.vrfTemplate = some p.vrf_template) &&
  decide (current.vrfTemplateConfig = some p.vrf_template_config) &&
  decide (current.vrfExtensionTemplate = some p.vrf_extension_template)

/-- `BaseStateV2._vrfs_equal` (base_state_v2.py): the same five-field
comparison on `VrfData` model attributes. -/
def vrfs_equal_v2 (current_vrf : VrfData) (desired_config : VrfConfig) : Bool :=
  let p := desired_config.to_payload
  decide (current_vrf.vrfName = some p.vrf_name) &&
  decide (current_vrf.vrfId = some p.vrf_id) &&
  decide (current_vrf.vrfTemplate = some p.vrf_template) &&
  decide (current_vrf.vrfTemplateConfig = some p.vrf_template_config) &&
  decide (current_vrf.vrfExtensionTemplate = some p.vrf_extension_template)

/-! ### The controller and transport environment -/

/-- One controller API call, as seen on the wire.  `readAll` is the single
GET endpoint `/fabrics/{fabric}/vrfs` (the only read the clients use —
single-VRF reads go through it too, the documented controller-bug
workaround). -/
inductive ApiOp where
  | readAll (fabric : String)
  | create (fabric vrf_name : String)
  | update (fabric vrf_name : String)
  | delete (fabric vrf_name : String)
deriving DecidableEq, Repr

/-- Outcome oracle for the opaque transport collaborator (RestSend +
sender).  `readOk`/`createOk`/`updateOk`/`deleteOk` say whether the
controller accepts each call (RETURN_CODE 200/201).

Modelled from the spec: `rest_send_v2.py` (the RestSend pipeline) is not in
the sources; per the spec it is an opaque request/response collaborator, so
its two observable outputs inside `VrfApi.create_vrf`/`update_vrf` are
modelled as independent oracle bits: `respDataOk` — the successful
result carries the processed response data (`result["response"]` truthy,
which gates the cache write); `handlerOk` — the response handler exposes a
processed response (`response_handler.result["response"]` truthy, whose
absence triggers the `raise ValueError` path). -/
structure Env where
  readOk : String → Bool
  createOk : String → String → Bool
  updateOk : String → String → Bool
  deleteOk : String → String → Bool
  respDataOk : String → String → Bool
  handlerOk : String → String → Bool

/-- The all-success environment (a healthy controller and pipeline). -/
def allOkEnv : Env :=
  ⟨fun _ => true, fun _ _ => true, fun _ _ => true, fun _ _ => true,
   fun _ _ => true, fun _ _ => true⟩

/-- Controller state: the set of VRF records, tagged by fabric.  A record's
identity on the controller is its `vrfName` within its fabric. -/
abbrev Ctrl : Type := List (String × VrfData)

def ctrlEraseVrf (ctrl : Ctrl) (fabric name : String) : Ctrl :=
  List.filter (fun r => ! decide (r.1 = fabric ∧ r.2.vrfName = some name)) ctrl

def ctrlInsertVrf (ctrl : Ctrl) (fabric name : String) (d : VrfData) : Ctrl :=
  (fabric, d) :: ctrlEraseVrf ctrl fabric name

/-- Records of one fabric, in controller order. -/
def ctrlFabric (ctrl : Ctrl) (fabric : String) : List VrfData :=
  (List.filter (fun r => decide (r.1 = fabric)) ctrl).map (fun r => r.2)

/-- String-keyed association map helpers for the Python dicts keyed by VRF
name.  `strInsert` overwrites in place / appends, preserving insertion
order like a Python dict. -/
def strFind {A : Type} : List (String × A) → String → Option A
  | [], _ => none
  | (n', v) :: rest, n => if n' = n then some v else strFind rest n

def strInsert {A : Type} : List (String × A) → String → A → List (String × A)
  | [], n, v => [(n, v)]
  | (n', v') :: rest, n, v =>
    if n' = n then (n', v) :: rest else (n', v') :: strInsert rest n v

/-! ### VRF API client, v1 (vrf_api.py)

State threaded explicitly: the controller plus the cache manager.  Field
name transformation (`"VRF Name"` to `vrfName`) is the out-of-scope mapping
layer; the controller records are carried in canonical form. -/

/-- Combined mutable state of one module run: controller plus cache. -/
structure ApiState where
  ctrl : Ctrl
  mgr : CacheManager VrfData
deriving Repr

/-- Result of a cache-aware read. -/
structure ReadOut (A : Type) where
  value : A
  st : ApiState
  ops : List ApiOp
deriving Repr

/-- Result of a mutating API call.  `exn` is true when the Python call
raised (the `raise ValueError` path of v1 create/update); `err` is the
`response["error"]` message surfaced on a failed call. -/
structure CallOut where
  ok : Bool
  exn : Bool
  err : String
  st : ApiState
  ops : List ApiOp
deriving Repr

def exVal {V : Type} : Except String (Option V) → Option V
  | .ok v => v
  | .error _ => none

/-- `VrfApi._fetch_all_vrfs`: GET the fabric's VRF list and key it by
`vrfName` (records with a falsy name are skipped; later duplicates
overwrite, as in the Python dict build).  Returns `{}` when the request
fails. -/
def fetchAllVrfs (env : Env) (ctrl : Ctrl) (fabric : String) : List (String × VrfData) :=
  if env.readOk fabric then
    (ctrlFabric ctrl fabric).foldl
      (fun acc d =>
        match d.vrfName with
        | some n => if n = "" then acc else strInsert acc n d
        | none => acc) []
  else []

/-- `VrfApi._fetch_single_vrf_from_all`: fetch all, then select one. -/
def fetchSingleVrfFromAll (env : Env) (ctrl : Ctrl) (fabric name : String) : Option VrfData :=
  strFind (fetchAllVrfs env ctrl fabric) name

/-- `VrfApi.get_cached`: single-VRF read through
`CachedResourceService.get_cached`; the fetch callback costs one
`readAll` when invoked. -/
def getCachedV1 (env : Env) (s : ApiState) (fabric name : String) (now : Nat) :
    ReadOut (Option VrfData) :=
  let o := CachedResourceService.get_cached s.mgr "vrf" fabric name
    (.ok (fetchSingleVrfFromAll env s.ctrl fabric name)) none now
  ⟨exVal o.value, { s with mgr := o.mgr },
   if o.fetchCalls = 0 then [] else [ApiOp.readAll fabric]⟩

/-- `VrfApi.exists_cached` (via `CachedResourceService.exists_cached`). -/
def vrfExistsV1 (env : Env) (s : ApiState) (fabric name : String) (now : Nat) :
    ReadOut (Bool × Option VrfData) :=
  let r := getCachedV1 env s fabric name now
  ⟨(r.value.isSome, r.value), r.st, r.ops⟩

/-- `VrfApi.get_all_cached` (via `CacheManager.get_bulk_or_fetch`). -/
def getAllCachedV1 (env : Env) (s : ApiState) (fabric : String) (now : Nat) :
    ReadOut (List (String × Option VrfData)) :=
  let o := s.mgr.get_bulk_or_fetch fabric "vrf" (fetchAllVrfs env s.ctrl fabric) none now
  ⟨o.value, { s with mgr := o.mgr },
   if o.fetchCalls = 0 then [] else [ApiOp.readAll fabric]⟩

/-- `VrfApi.create_vrf`: POST; on success the controller stores the
payload, the cache is write-through updated when the processed result
carries response data, and a missing processed response raises
`ValueError` after the cache write. -/
def createVrfV1 (env : Env) (s : ApiState) (p : VrfPayload) (now : Nat) : CallOut :=
  if env.createOk p.fabric p.vrf_name then
    let s1 : ApiState := { s with ctrl := ctrlInsertVrf s.ctrl p.fabric p.vrf_name (payloadData p) }
    let mgr2 := s1.mgr.update_cache ⟨"vrf", p.fabric, p.vrf_name⟩ (some (payloadData p)) none now
    let s2 : ApiState :=
      if env.respDataOk p.fabric p.vrf_name then { s1 with mgr := mgr2 } else s1
    if env.handlerOk p.fabric p.vrf_name then
      ⟨true, false, "", s2, [ApiOp.create p.fabric p.vrf_name]⟩
    else
      ⟨false, true, "", s2, [ApiOp.create p.fabric p.vrf_name]⟩
  else
    ⟨false, false, "Request failed", s, [ApiOp.create p.fabric p.vrf_name]⟩

/-- `VrfApi.update_vrf`: same flow as create (same POST endpoint), with the
`update_cache_after_update` write-through. -/
def updateVrfV1 (env : Env) (s : ApiState) (p : VrfPayload) (now : Nat) : CallOut :=
  if env.updateOk p.fabric p.vrf_name then
    let s1 : ApiState := { s with ctrl := ctrlInsertVrf s.ctrl p.fabric p.vrf_name (payloadData p) }
    let mgr2 := s1.mgr.update_cache ⟨"vrf", p.fabric, p.vrf_name⟩ (some (payloadData p)) none now
    let s2 : ApiState :=
      if env.respDataOk p.fabric p.vrf_name then { s1 with mgr := mgr2 } else s1
    if env.handlerOk p.fabric p.vrf_name then
      ⟨true, false, "", s2, [ApiOp.update p.fabric p.vrf_name]⟩
    else
      ⟨false, true, "", s2, [ApiOp.update p.fabric p.vrf_name]⟩
  else
    ⟨false, false, "Request failed", s, [ApiOp.update p.fabric p.vrf_name]⟩

/-- `VrfApi.delete_vrf`: DELETE; on success the controller record and the
cache entry are removed. -/
def deleteVrfV1 (env : Env) (s : ApiState) (fabric name : String) : CallOut :=
  if env.deleteOk fabric name then
    ⟨true, false, "",
     { ctrl := ctrlEraseVrf s.ctrl fabric name,
       mgr := s.mgr.remove_from_cache ⟨"vrf", fabric, name⟩ },
     [ApiOp.delete fabric name]⟩
  else
    ⟨false, false, "Request failed", s, [ApiOp.delete fabric name]⟩

/-- Result of a cache-bypassing query. -/
structure QueryOut where
  ok : Bool
  data : List VrfData
  ops : List ApiOp
deriving Repr

/-- `VrfApi.query_all_vrfs`: always re-reads from the controller, returning
the raw DATA array (never touching the cache). -/
def queryAllVrfsV1 (env : Env) (s : ApiState) (fabric : String) : QueryOut :=
  if env.readOk fabric then ⟨true, ctrlFabric s.ctrl fabric, [ApiOp.readAll fabric]⟩
  else ⟨false, [], [ApiOp.readAll fabric]⟩

/-- `VrfApi.query_vrf`: query all, filter to the named VRF. -/
def queryVrfV1 (env : Env) (s : ApiState) (fabric name : String) : QueryOut :=
  let q := queryAllVrfsV1 env s fabric
  if q.ok then
    ⟨true, q.data.filter (fun d => decide (d.vrfName = some name)), q.ops⟩
  else ⟨false, [], q.ops⟩

/-! ### State handlers (plugins/module_utils/vrf/states/)

The handlers are modelled as explicit recursions over the desired-config
list.  `datetime.now()` is frozen to one `now` for a run (module runs are
short-lived processes); Python `set` iteration is modelled in
first-occurrence order, so ordering conclusions across distinct keys are
stated order-insensitively. -/

/-- The module result fields the reconciliation engine computes.  The
presentation duplicates (`stdout`/`stderr` mirror `msg`) and the raw
`response` list are omitted. -/
structure ModuleResult where
  changed : Bool := false
  failed : Bool := false
  msg : String := ""
deriving DecidableEq, Repr

/-- Outcome of one state-handler `execute` run.  `exn = true` means an
exception escaped the handler (no result was returned to the module); the
accumulator lists are exposed for precise per-operation claims. -/
structure RunOut where
  exn : Bool
  result : ModuleResult
  st : ApiState
  ops : List ApiOp
  created : List String
  updated : List String
  deleted : List String
  errors : List String
deriving Repr

/-- `BaseState._build_result_message`.  The `inspect.stack` caller probe
compares against the literal function name `execute` in every reachable
call chain, so the updated list is always labelled `Updated VRFs`. -/
def buildResultMessage (created updated deleted : List String) : String :=
  let m1 : List String :=
    if deleted.isEmpty then [] else ["Deleted VRFs: " ++ String.intercalate ", " deleted]
  let m2 : List String :=
    if created.isEmpty then [] else ["Created VRFs: " ++ String.intercalate ", " created]
  let m3 : List String :=
    if updated.isEmpty then [] else ["Updated VRFs: " ++ String.intercalate ", " updated]
  let msgs := m1 ++ m2 ++ m3
  if msgs.isEmpty then "No changes needed" else String.intercalate "; " msgs

/-- `BaseState._finalize_result`. -/
def finalizeResult (changed : Bool) (created updated deleted errors : List String) :
    ModuleResult :=
  if errors.isEmpty then
    { changed := changed, failed := false, msg := buildResultMessage created updated deleted }
  else
    { changed := changed, failed := true, msg := String.intercalate "; " errors }

/-- First-occurrence deduplication (deterministic stand-in for Python
`set(config.fabric for config in configs)` iteration). -/
def dedupFabrics : List VrfConfig → List String → List String
  | [], acc => acc
  | c :: cs, acc =>
    if c.fabric ∈ acc then dedupFabrics cs acc else dedupFabrics cs (acc ++ [c.fabric])

/-- `BaseState._populate_all_fabric_caches`: one cached bulk read per
distinct fabric of the batch, before any per-item processing. -/
def populateLoop (env : Env) (now : Nat) : List String → ApiState → ApiState × List ApiOp
  | [], s => (s, [])
  | f :: fs, s =>
    let r := getAllCachedV1 env s f now
    let rest := populateLoop env now fs r.st
    (rest.1, r.ops ++ rest.2)

def populateFabricCaches (env : Env) (s : ApiState) (configs : List VrfConfig) (now : Nat) :
    ApiState × List ApiOp :=
  populateLoop env now (dedupFabrics configs []) s

/-- Per-operation counters over a trace. -/
def ApiOp.isRead : ApiOp → Bool
  | .readAll _ => true
  | _ => false

def ApiOp.isCreate : ApiOp → Bool
  | .create _ _ => true
  | _ => false

def ApiOp.isUpdate : ApiOp → Bool
  | .update _ _ => true
  | _ => false

def ApiOp.isDelete : ApiOp → Bool
  | .delete _ _ => true
  | _ => false

def countReads (ops : List ApiOp) : Nat := (ops.filter ApiOp.isRead).length
def countCreates (ops : List ApiOp) : Nat := (ops.filter ApiOp.isCreate).length
def countUpdates (ops : List ApiOp) : Nat := (ops.filter ApiOp.isUpdate).length
def countDeletes (ops : List ApiOp) : Nat := (ops.filter ApiOp.isDelete).length

/-- The per-item loop of `Merged.execute` (merged.py): absent means create,
present-and-different means update, present-and-equal means no
action.  A `ValueError` escaping `create_vrf`/`update_vrf` aborts the
run. -/
def mergedLoop (env : Env) (now : Nat) :
    List VrfConfig → ApiState → Bool → List ApiOp → List String → List String →
    List String → RunOut
  | [], s, ch, ops, cr, up, er => ⟨false, ⟨ch, false, ""⟩, s, ops, cr, up, [], er⟩
  | c :: cs, s, ch, ops, cr, up, er =>
    let r := getCachedV1 env s c.fabric c.vrf_name now
    match r.value with
    | some cur =>
      if vrfs_equal cur c then
        mergedLoop env now cs r.st ch (ops ++ r.ops) cr up er
      else
        let u := updateVrfV1 env r.st c.to_payload now
        if u.exn then ⟨true, ⟨ch, false, ""⟩, u.st, ops ++ r.ops ++ u.ops, cr, up, [], er⟩
        else if u.ok then
          mergedLoop env now cs u.st true (ops ++ r.ops ++ u.ops) cr (up ++ [c.vrf_name]) er
        else
          mergedLoop env now cs u.st ch (ops ++ r.ops ++ u.ops) cr up
            (er ++ ["Failed to update VRF " ++ c.vrf_name ++ ": " ++ u.err])
    | none =>
      let cr' := createVrfV1 env r.st c.to_payload now
      if cr'.exn then ⟨true, ⟨ch, false, ""⟩, cr'.st, ops ++ r.ops ++ cr'.ops, cr, up, [], er⟩
      else if cr'.ok then
        mergedLoop env now cs cr'.st true (ops ++ r.ops ++ cr'.ops) (cr ++ [c.vrf_name]) up er
      else
        mergedLoop env now cs cr'.st ch (ops ++ r.ops ++ cr'.ops) cr up
          (er ++ ["Failed to create VRF " ++ c.vrf_name ++ ": " ++ cr'.err])

/-- `Merged.execute`: pre-warm every fabric cache, run the per-item loop,
finalize the result. -/
def mergedExecute (env : Env) (s0 : ApiState) (configs : List VrfConfig) (now : Nat) : RunOut :=
  let p := populateFabricCaches env s0 configs now
  let lo := mergedLoop env now configs p.1 false p.2 [] [] []
  if lo.exn then lo
  else
    { lo with result := finalizeResult lo.result.changed lo.created lo.updated [] lo.errors }

/-- The hypothesis of the merged-idempotence claim, evaluated along the
run: at each item's processing point the cache-aware existence check
returns a current record equal (under `_vrfs_equal`) to the desired
configuration. -/
def allEqualAlongMerged (env : Env) (now : Nat) : ApiState → List VrfConfig → Bool
  | _, [] => true
  | s, c :: cs =>
    let r := getCachedV1 env s c.fabric c.vrf_name now
    match r.value with
    | some cur => vrfs_equal cur c && allEqualAlongMerged env now r.st cs
    | none => false

/-! ### Trace-counting lemmas -/

theorem countCreates_append (a b : List ApiOp) :
    countCreates (a ++ b) = countCreates a + countCreates b := by
  simp [countCreates, List.filter_append]

theorem countUpdates_append (a b : List ApiOp) :
    countUpdates (a ++ b) = countUpdates a + countUpdates b := by
  simp [countUpdates, List.filter_append]

theorem countDeletes_append (a b : List ApiOp) :
    countDeletes (a ++ b) = countDeletes a + countDeletes b := by
  simp [countDeletes, List.filter_append]

theorem countReads_append (a b : List ApiOp) :
    countReads (a ++ b) = countReads a + countReads b := by
  simp [countReads, List.filter_append]

/-- A cache-aware single read never emits mutation calls. -/
theorem getCachedV1_ops_no_mut (env : Env) (s : ApiState) (f n : String) (now : Nat) :
    countCreates (getCachedV1 env s f n now).ops = 0 ∧
    countUpdates (getCachedV1 env s f n now).ops = 0 ∧
    countDeletes (getCachedV1 env s f n now).ops = 0 := by
  by_cases h : (CachedResourceService.get_cached s.mgr "vrf" f n
      (Except.ok (fetchSingleVrfFromAll env s.ctrl f n)) none now).fetchCalls = 0 <;>
    simp [getCachedV1, h, countCreates, countUpdates, countDeletes, ApiOp.isCreate,
      ApiOp.isUpdate, ApiOp.isDelete]

/-- A cache-aware bulk read never emits mutation calls. -/
theorem getAllCachedV1_ops_no_mut (env : Env) (s : ApiState) (f : String) (now : Nat) :
    countCreates (getAllCachedV1 env s f now).ops = 0 ∧
    countUpdates (getAllCachedV1 env s f now).ops = 0 ∧
    countDeletes (getAllCachedV1 env s f now).ops = 0 := by
  by_cases h : (s.mgr.get_bulk_or_fetch f "vrf" (fetchAllVrfs env s.ctrl f) none now).fetchCalls
      = 0 <;>
    simp [getAllCachedV1, h, countCreates, countUpdates, countDeletes, ApiOp.isCreate,
      ApiOp.isUpdate, ApiOp.isDelete]

/-- Cache pre-warming emits only reads. -/
theorem populateLoop_ops_no_mut (env : Env) (now : Nat) (fs : List String) :
    ∀ s : ApiState,
    countCreates (populateLoop env now fs s).2 = 0 ∧
    countUpdates (populateLoop env now fs s).2 = 0 ∧
    countDeletes (populateLoop env now fs s).2 = 0 := by
  induction fs with
  | nil => intro s; simp [populateLoop, countCreates, countUpdates, countDeletes]
  | cons f fs ih =>
    intro s
    have hr := getAllCachedV1_ops_no_mut env s f now
    have hrec := ih (getAllCachedV1 env s f now).st
    simp only [populateLoop, countCreates_append, countUpdates_append, countDeletes_append]
    omega

/-! ### Claim C1 -/

/-- Along an all-equal batch, the merged loop performs no operation beyond
its cache-aware reads: accumulators, exception flag, and mutation counts
are untouched. -/
theorem mergedLoop_all_equal (env : Env) (now : Nat) (cs : List VrfConfig) :
    ∀ (s : ApiState) (ch : Bool) (ops : List ApiOp) (cr up er : List String),
    allEqualAlongMerged env now s cs = true →
    (mergedLoop env now cs s ch ops cr up er).exn = false ∧
    (mergedLoop env now cs s ch ops cr up er).result.changed = ch ∧
    (mergedLoop env now cs s ch ops cr up er).errors = er ∧
    countCreates (mergedLoop env now cs s ch ops cr up er).ops = countCreates ops ∧
    countUpdates (mergedLoop env now cs s ch ops cr up er).ops = countUpdates ops := by
  induction cs with
  | nil =>
    intro s ch ops cr up er _
    simp [mergedLoop]
  | cons c cs ih =>
    intro s ch ops cr up er h
    simp only [allEqualAlongMerged] at h
    cases hv : (getCachedV1 env s c.fabric c.vrf_name now).value with
    | none => rw [hv] at h; simp at h
    | some cur =>
      rw [hv] at h
      simp only [Bool.and_eq_true] at h
      obtain ⟨heq, hrest⟩ := h
      have hro := getCachedV1_ops_no_mut env s c.fabric c.vrf_name now
      have hrec := ih (getCachedV1 env s c.fabric c.vrf_name now).st ch
        (ops ++ (getCachedV1 env s c.fabric c.vrf_name now).ops) cr up er hrest
      simp only [mergedLoop, hv, heq, if_pos]
      refine ⟨hrec.1, hrec.2.1, hrec.2.2.1, ?_, ?_⟩
      · rw [hrec.2.2.2.1, countCreates_append, hro.1]; omega
      · rw [hrec.2.2.2.2, countUpdates_append, hro.2.1]; omega

/-- C1: if every desired VRF item's cache-aware existence check (at its
point in the run, after the pre-warm) returns a current record equal to
the desired configuration under `_vrfs_equal`, then `Merged.execute`
returns `changed = false` and issues zero create and zero update calls. -/
theorem c1_merged_idempotence (env : Env) (s0 : ApiState) (configs : List VrfConfig)
    (now : Nat)
    (h : allEqualAlongMerged env now (populateFabricCaches env s0 configs now).1 configs
        = true) :
    (mergedExecute env s0 configs now).result.changed = false ∧
    countCreates (mergedExecute env s0 configs now).ops = 0 ∧
    countUpdates (mergedExecute env s0 configs now).ops = 0 := by
  have hpop := populateLoop_ops_no_mut env now (dedupFabrics configs []) s0
  have hloop := mergedLoop_all_equal env now configs
    (populateFabricCaches env s0 configs now).1 false
    (populateFabricCaches env s0 configs now).2 [] [] [] h
  have herr := hloop.2.2.1
  have hch := hloop.2.1
  simp only [mergedExecute]
  rw [hloop.1]
  simp only [Bool.false_eq_true, if_false]
  refine ⟨?_, ?_, ?_⟩
  · simp [finalizeResult, herr, hch]
  · rw [hloop.2.2.2.1]
    simp only [populateFabricCaches]
    exact hpop.1
  · rw [hloop.2.2.2.2]
    simp only [populateFabricCaches]
    exact hpop.2.1

/-- Witness for C1: a one-item batch whose VRF already exists on the
controller in exactly the desired shape. -/
theorem c1_merged_idempotence_witness :
    (allEqualAlongMerged allOkEnv 0
        (populateFabricCaches allOkEnv
          ⟨[("f1", payloadData (VrfConfig.to_payload ⟨"f1", "v1", 1, "T", "TC", "ET"⟩))],
            ⟨⟨[], some 300⟩, some 300⟩⟩
          [⟨"f1", "v1", 1, "T", "TC", "ET"⟩] 0).1
        [⟨"f1", "v1", 1, "T", "TC", "ET"⟩] = true) ∧
    (mergedExecute allOkEnv
        ⟨[("f1", payloadData (VrfConfig.to_payload ⟨"f1", "v1", 1, "T", "TC", "ET"⟩))],
          ⟨⟨[], some 300⟩, some 300⟩⟩
        [⟨"f1", "v1", 1, "T", "TC", "ET"⟩] 0).result.changed = false := by
  refine ⟨by decide, ?_⟩
  exact (c1_merged_idempotence allOkEnv
    ⟨[("f1", payloadData (VrfConfig.to_payload ⟨"f1", "v1", 1, "T", "TC", "ET"⟩))],
      ⟨⟨[], some 300⟩, some 300⟩⟩
    [⟨"f1", "v1", 1, "T", "TC", "ET"⟩] 0 (by decide)).1

/-! ### Query state handler (query.py) -/

/-- Outcome of the query per-item loop. -/
structure QLoopOut where
  exn : Bool
  queried : List (List VrfData)
  errors : List String
  ops : List ApiOp
deriving Repr

/-- The per-item loop of `Query.execute`.  With an identifier it queries
and filters; with an empty identifier it calls `query_all_vrfs` — which
returns a plain list — and then invokes `.get("DATA")` on that list, an
`AttributeError` whenever the list is nonempty (modelled as `exn`). -/
def queryLoop (env : Env) : List VrfConfig → ApiState → List (List VrfData) → List String →
    List ApiOp → QLoopOut
  | [], _, q, er, ops => ⟨false, q, er, ops⟩
  | c :: cs, s, q, er, ops =>
    if c.vrf_name = "" then
      let r := queryAllVrfsV1 env s c.fabric
      if r.ok = true ∧ r.data ≠ [] then
        ⟨true, q, er, ops ++ r.ops⟩
      else if r.ok = false then
        queryLoop env cs s q (er ++ ["Failed to query VRFs in fabric " ++ c.fabric])
          (ops ++ r.ops)
      else queryLoop env cs s q er (ops ++ r.ops)
    else
      let r := queryVrfV1 env s c.fabric c.vrf_name
      if r.ok = true ∧ r.data ≠ [] then
        queryLoop env cs s (q ++ [r.data]) er (ops ++ r.ops)
      else if r.ok = false then
        queryLoop env cs s q
          (er ++ ["Failed to query VRF " ++ c.vrf_name ++ " in fabric " ++ c.fabric])
          (ops ++ r.ops)
      else queryLoop env cs s q er (ops ++ r.ops)

/-- `Query.execute`: run the loop and finalize; `changed` is set to false
unconditionally at the end, and the handler never touches the cache or the
controller state. -/
def queryExecute (env : Env) (s0 : ApiState) (configs : List VrfConfig) : RunOut :=
  let lo := queryLoop env configs s0 [] [] []
  if lo.exn then ⟨true, ⟨false, false, ""⟩, s0, lo.ops, [], [], [], lo.errors⟩
  else if lo.errors.isEmpty then
    ⟨false, ⟨false, false, "Queried " ++ toString lo.queried.length ++ " VRFs"⟩, s0, lo.ops,
      [], [], [], lo.errors⟩
  else
    ⟨false, ⟨false, true, String.intercalate "; " lo.errors⟩, s0, lo.ops, [], [], [], lo.errors⟩

theorem queryAllVrfsV1_ops (env : Env) (s : ApiState) (f : String) :
    (queryAllVrfsV1 env s f).ops = [ApiOp.readAll f] := by
  unfold queryAllVrfsV1
  split <;> rfl

theorem queryVrfV1_ops (env : Env) (s : ApiState) (f n : String) :
    (queryVrfV1 env s f n).ops = [ApiOp.readAll f] := by
  by_cases h : (queryAllVrfsV1 env s f).ok = true <;>
    simp [queryVrfV1, h, queryAllVrfsV1_ops]

/-- The query loop emits only reads. -/
theorem queryLoop_no_mut (env : Env) (cs : List VrfConfig) :
    ∀ (s : ApiState) (q : List (List VrfData)) (er : List String) (ops : List ApiOp),
    countCreates (queryLoop env cs s q er ops).ops = countCreates ops ∧
    countUpdates (queryLoop env cs s q er ops).ops = countUpdates ops ∧
    countDeletes (queryLoop env cs s q er ops).ops = countDeletes ops := by
  induction cs with
  | nil => intro s q er ops; simp [queryLoop]
  | cons c cs ih =>
    intro s q er ops
    have hops1 := queryAllVrfsV1_ops env s c.fabric
    have hops2 := queryVrfV1_ops env s c.fabric c.vrf_name
    have hcnt1 : countCreates (ops ++ (queryAllVrfsV1 env s c.fabric).ops) = countCreates ops ∧
        countUpdates (ops ++ (queryAllVrfsV1 env s c.fabric).ops) = countUpdates ops ∧
        countDeletes (ops ++ (queryAllVrfsV1 env s c.fabric).ops) = countDeletes ops := by
      rw [hops1]
      simp [countCreates_append, countUpdates_append, countDeletes_append, countCreates,
        countUpdates, countDeletes, ApiOp.isCreate, ApiOp.isUpdate, ApiOp.isDelete]
    have hcnt2 : countCreates (ops ++ (queryVrfV1 env s c.fabric c.vrf_name).ops)
          = countCreates ops ∧
        countUpdates (ops ++ (queryVrfV1 env s c.fabric c.vrf_name).ops) = countUpdates ops ∧
        countDeletes (ops ++ (queryVrfV1 env s c.fabric c.vrf_name).ops) = countDeletes ops := by
      rw [hops2]
      simp [countCreates_append, countUpdates_append, countDeletes_append, countCreates,
        countUpdates, countDeletes, ApiOp.isCreate, ApiOp.isUpdate, ApiOp.isDelete]
    by_cases hn : c.vrf_name = ""
    · by_cases hc : (queryAllVrfsV1 env s c.fabric).ok = true ∧
          (queryAllVrfsV1 env s c.fabric).data ≠ []
      · simp only [queryLoop]
        rw [if_pos hn, if_pos hc]
        exact hcnt1
      · by_cases hok : (queryAllVrfsV1 env s c.fabric).ok = false
        · simp only [queryLoop]
          rw [if_pos hn, if_neg hc, if_pos hok]
          have := ih s q (er ++ ["Failed to query VRFs in fabric " ++ c.fabric])
            (ops ++ (queryAllVrfsV1 env s c.fabric).ops)
          exact ⟨by rw [this.1, hcnt1.1], by rw [this.2.1, hcnt1.2.1],
            by rw [this.2.2, hcnt1.2.2]⟩
        · simp only [queryLoop]
          rw [if_pos hn, if_neg hc, if_neg hok]
          have := ih s q er (ops ++ (queryAllVrfsV1 env s c.fabric).ops)
          exact ⟨by rw [this.1, hcnt1.1], by rw [this.2.1, hcnt1.2.1],
            by rw [this.2.2, hcnt1.2.2]⟩
    · by_cases hc : (queryVrfV1 env s c.fabric c.vrf_name).ok = true ∧
          (queryVrfV1 env s c.fabric c.vrf_name).data ≠ []
      · simp only [queryLoop]
        rw [if_neg hn, if_pos hc]
        have := ih s (q ++ [(queryVrfV1 env s c.fabric c.vrf_name).data]) er
          (ops ++ (queryVrfV1 env s c.fabric c.vrf_name).ops)
        exact ⟨by rw [this.1, hcnt2.1], by rw [this.2.1, hcnt2.2.1],
          by rw [this.2.2, hcnt2.2.2]⟩
      · by_cases hok : (queryVrfV1 env s c.fabric c.vrf_name).ok = false
        · simp only [queryLoop]
          rw [if_neg hn, if_neg hc, if_pos hok]
          have := ih s q
            (er ++ ["Failed to query VRF " ++ c.vrf_name ++ " in fabric " ++ c.fabric])
            (ops ++ (queryVrfV1 env s c.fabric c.vrf_name).ops)
          exact ⟨by rw [this.1, hcnt2.1], by rw [this.2.1, hcnt2.2.1],
            by rw [this.2.2, hcnt2.2.2]⟩
        · simp only [queryLoop]
          rw [if_neg hn, if_neg hc, if_neg hok]
          have := ih s q er (ops ++ (queryVrfV1 env s c.fabric c.vrf_name).ops)
          exact ⟨by rw [this.1, hcnt2.1], by rw [this.2.1, hcnt2.2.1],
            by rw [this.2.2, hcnt2.2.2]⟩

/-! ### Claim C7 -/

/-- C7: the query handler issues zero create, update, or delete calls on
every input, and whenever it produces a result, `changed` is false — but
the all-VRFs branch raises instead of returning whenever the queried
fabric has any VRF: `query_all_vrfs` returns a plain list, on which
`Query.execute` then calls `.get("DATA")` (an `AttributeError`).  The
final conjunct evaluates the handler at such a failing input. -/
theorem c7_query_non_mutation_and_crash :
    (∀ (env : Env) (s0 : ApiState) (configs : List VrfConfig),
        countCreates (queryExecute env s0 configs).ops = 0 ∧
        countUpdates (queryExecute env s0 configs).ops = 0 ∧
        countDeletes (queryExecute env s0 configs).ops = 0 ∧
        (queryExecute env s0 configs).result.changed = false) ∧
    (queryExecute allOkEnv
        ⟨[("f1", payloadData (VrfConfig.to_payload ⟨"f1", "v1", 1, "T", "TC", "ET"⟩))],
          ⟨⟨[], some 300⟩, some 300⟩⟩
        [⟨"f1", "", 0, "T", "TC", "ET"⟩]).exn = true := by
  constructor
  · intro env s0 configs
    have h := queryLoop_no_mut env configs s0 [] [] []
    by_cases he : (queryLoop env configs s0 [] [] []).exn = true
    · simp only [queryExecute]
      rw [if_pos he]
      exact ⟨by rw [h.1]; rfl, by rw [h.2.1]; rfl, by rw [h.2.2]; rfl, rfl⟩
    · by_cases her : (queryLoop env configs s0 [] [] []).errors.isEmpty = true
      · simp only [queryExecute]
        rw [if_neg he, if_pos her]
        exact ⟨by rw [h.1]; rfl, by rw [h.2.1]; rfl, by rw [h.2.2]; rfl, rfl⟩
      · simp only [queryExecute]
        rw [if_neg he, if_neg her]
        exact ⟨by rw [h.1]; rfl, by rw [h.2.1]; rfl, by rw [h.2.2]; rfl, rfl⟩
  · decide

/-! ### Claim C5, counterexample -/

/-- C5 counterexample: the query handler performs no pre-warm bulk fetch —
a batch of two desired items in the same fabric issues two read calls, not
at most one. -/
theorem c5_query_two_items_two_reads :
    (countReads (queryExecute allOkEnv
        ⟨[("f1", payloadData (VrfConfig.to_payload ⟨"f1", "v1", 1, "T", "TC", "ET"⟩)),
          ("f1", payloadData (VrfConfig.to_payload ⟨"f1", "v2", 2, "T", "TC", "ET"⟩))],
          ⟨⟨[], some 300⟩, some 300⟩⟩
        [⟨"f1", "v1", 1, "T", "TC", "ET"⟩, ⟨"f1", "v2", 2, "T", "TC", "ET"⟩]).ops = 2)
      ∧ ¬ (2 ≤ 1) := by
  decide

/-! ### Replaced state handler (replaced.py) -/

/-- The per-item loop of `Replaced.execute`
(`_process_vrf_replacements`): absent means create; present-and-different
means delete then create (`_replace_existing_vrf`); present-and-equal
means no action.  A create failure after a successful delete records one
combined error and moves on; a delete failure records one error and the
create is never attempted. -/
def replacedLoop (env : Env) (now : Nat) :
    List VrfConfig → ApiState → Bool → List ApiOp → List String → List String →
    List String → RunOut
  | [], s, ch, ops, cr, rep, er => ⟨false, ⟨ch, false, ""⟩, s, ops, cr, rep, [], er⟩
  | c :: cs, s, ch, ops, cr, rep, er =>
    let r := getCachedV1 env s c.fabric c.vrf_name now
    match r.value with
    | some cur =>
      if vrfs_equal cur c then
        replacedLoop env now cs r.st ch (ops ++ r.ops) cr rep er
      else
        let d := deleteVrfV1 env r.st c.fabric c.vrf_name
        if d.ok then
          let cr2 := createVrfV1 env d.st c.to_payload now
          if cr2.exn then
            ⟨true, ⟨ch, false, ""⟩, cr2.st, ops ++ r.ops ++ d.ops ++ cr2.ops, cr, rep, [], er⟩
          else if cr2.ok then
            replacedLoop env now cs cr2.st true (ops ++ r.ops ++ d.ops ++ cr2.ops) cr
              (rep ++ [c.vrf_name]) er
          else
            replacedLoop env now cs cr2.st ch (ops ++ r.ops ++ d.ops ++ cr2.ops) cr rep
              (er ++ ["Failed to create VRF " ++ c.vrf_name ++ " after deletion: " ++ cr2.err])
        else
          replacedLoop env now cs d.st ch (ops ++ r.ops ++ d.ops) cr rep
            (er ++ ["Failed to delete VRF " ++ c.vrf_name ++ " for replacement: " ++ d.err])
    | none =>
      let cr2 := createVrfV1 env r.st c.to_payload now
      if cr2.exn then
        ⟨true, ⟨ch, false, ""⟩, cr2.st, ops ++ r.ops ++ cr2.ops, cr, rep, [], er⟩
      else if cr2.ok then
        replacedLoop env now cs cr2.st true (ops ++ r.ops ++ cr2.ops) (cr ++ [c.vrf_name])
          rep er
      else
        replacedLoop env now cs cr2.st ch (ops ++ r.ops ++ cr2.ops) cr rep
          (er ++ ["Failed to create VRF " ++ c.vrf_name ++ ": " ++ cr2.err])

/-- `Replaced.execute`: pre-warm, loop, finalize (the replaced-names list
travels in the updated slot, as in the source call to
`_finalize_result`). -/
def replacedExecute (env : Env) (s0 : ApiState) (configs : List VrfConfig) (now : Nat) :
    RunOut :=
  let p := populateFabricCaches env s0 configs now
  let lo := replacedLoop env now configs p.1 false p.2 [] [] []
  if lo.exn then lo
  else
    { lo with result := finalizeResult lo.result.changed lo.created lo.updated [] lo.errors }

/-! ### Mutation-subtrace helpers -/

/-- The mutating calls of a trace, in order. -/
def mutOps (ops : List ApiOp) : List ApiOp := ops.filter (fun o => ! o.isRead)

theorem mutOps_append (a b : List ApiOp) : mutOps (a ++ b) = mutOps a ++ mutOps b := by
  simp [mutOps, List.filter_append]

theorem mutOps_of_reads {l : List ApiOp} (h : ∀ op ∈ l, op.isRead = true) : mutOps l = [] := by
  simp only [mutOps, List.filter_eq_nil_iff]
  intro a ha
  simp [h a ha]

theorem getCachedV1_ops_reads (env : Env) (s : ApiState) (f n : String) (now : Nat) :
    ∀ op ∈ (getCachedV1 env s f n now).ops, op.isRead = true := by
  intro op hop
  by_cases h : (CachedResourceService.get_cached s.mgr "vrf" f n
      (Except.ok (fetchSingleVrfFromAll env s.ctrl f n)) none now).fetchCalls = 0 <;>
    simp [getCachedV1, h] at hop
  · subst hop; rfl

theorem getAllCachedV1_ops_reads (env : Env) (s : ApiState) (f : String) (now : Nat) :
    ∀ op ∈ (getAllCachedV1 env s f now).ops, op.isRead = true := by
  intro op hop
  by_cases h : (s.mgr.get_bulk_or_fetch f "vrf" (fetchAllVrfs env s.ctrl f) none now).fetchCalls
      = 0 <;>
    simp [getAllCachedV1, h] at hop
  · subst hop; rfl

theorem populateLoop_ops_reads (env : Env) (now : Nat) (fs : List String) :
    ∀ (s : ApiState), ∀ op ∈ (populateLoop env now fs s).2, op.isRead = true := by
  induction fs with
  | nil => intro s op hop; simp [populateLoop] at hop
  | cons f fs ih =>
    intro s op hop
    simp only [populateLoop, List.mem_append] at hop
    rcases hop with hop | hop
    · exact getAllCachedV1_ops_reads env s f now op hop
    · exact ih (getAllCachedV1 env s f now).st op hop

theorem assocFind_erase {V : Type} (l : List (CacheKey × CacheEntry V)) (k : CacheKey) :
    assocFind (assocErase l k) k = none := by
  induction l with
  | nil => rfl
  | cons p rest ih =>
    obtain ⟨k', e⟩ := p
    by_cases hk : k' = k <;> simp [assocErase, assocFind, hk, ih]

theorem ctrlEraseVrf_no_match (ctrl : Ctrl) (fabric name : String) :
    ∀ r ∈ ctrlEraseVrf ctrl fabric name, ¬(r.1 = fabric ∧ r.2.vrfName = some name) := by
  intro r hr
  simp only [ctrlEraseVrf, List.mem_filter, Bool.not_eq_eq_eq_not, Bool.not_true,
    decide_eq_false_iff_not] at hr
  exact hr.2

theorem populateFabricCaches_ops_reads (env : Env) (s : ApiState) (configs : List VrfConfig)
    (now : Nat) : ∀ op ∈ (populateFabricCaches env s configs now).2, op.isRead = true :=
  populateLoop_ops_reads env now (dedupFabrics configs []) s

theorem createVrfV1_ops (env : Env) (s : ApiState) (p : VrfPayload) (now : Nat) :
    (createVrfV1 env s p now).ops = [ApiOp.create p.fabric p.vrf_name] := by
  by_cases hc : env.createOk p.fabric p.vrf_name = true
  · by_cases hh : env.handlerOk p.fabric p.vrf_name = true <;>
      by_cases hr : env.respDataOk p.fabric p.vrf_name = true <;>
      simp [createVrfV1, hc, hh, hr]
  · simp [createVrfV1, hc]

theorem createVrfV1_fail (env : Env) (s : ApiState) (p : VrfPayload) (now : Nat)
    (h : env.createOk p.fabric p.vrf_name = false) :
    createVrfV1 env s p now
      = ⟨false, false, "Request failed", s, [ApiOp.create p.fabric p.vrf_name]⟩ := by
  simp [createVrfV1, h]

theorem deleteVrfV1_ok (env : Env) (s : ApiState) (f n : String)
    (h : env.deleteOk f n = true) :
    deleteVrfV1 env s f n
      = ⟨true, false, "",
          ⟨ctrlEraseVrf s.ctrl f n, s.mgr.remove_from_cache ⟨"vrf", f, n⟩⟩,
          [ApiOp.delete f n]⟩ := by
  simp [deleteVrfV1, h]

/-! ### Claim C4 -/

/-- C4 counterexample: when the delete call itself fails, the replaced
handler issues NO create call (the claim asserts exactly one delete
followed by exactly one create for every existing-and-different item) —
one delete, zero creates, one per-item error, and processing stops
there for the item. -/
theorem c4_delete_fails_no_create :
    (countDeletes (replacedExecute
        { allOkEnv with deleteOk := fun _ _ => false }
        ⟨[("f1", ⟨some "v1", some 9, some "T", some "TC", some "ET"⟩)],
          ⟨⟨[], some 300⟩, some 300⟩⟩
        [⟨"f1", "v1", 1, "T", "TC", "ET"⟩] 0).ops = 1) ∧
    (countCreates (replacedExecute
        { allOkEnv with deleteOk := fun _ _ => false }
        ⟨[("f1", ⟨some "v1", some 9, some "T", some "TC", some "ET"⟩)],
          ⟨⟨[], some 300⟩, some 300⟩⟩
        [⟨"f1", "v1", 1, "T", "TC", "ET"⟩] 0).ops = 0) ∧
    (0 : Nat) ≠ 1 := by
  decide

/-- C4 (amended): for a desired item that exists with a different
configuration, `replaced` issues exactly one delete call and — when the
delete succeeds — exactly one create call after it, both targeting that
resource, with no retry; when the delete succeeds and the create then
fails, the resource is left missing from both the controller and the
cache, and exactly one combined error message naming the resource is
recorded for the item, with `failed = true` in the result. -/
theorem c4_replaced_delete_then_create (env : Env) (s0 : ApiState) (c : VrfConfig)
    (cur : VrfData) (now : Nat)
    (hex : (getCachedV1 env (populateFabricCaches env s0 [c] now).1 c.fabric c.vrf_name
        now).value = some cur)
    (hneq : vrfs_equal cur c = false)
    (hdel : env.deleteOk c.fabric c.vrf_name = true) :
    (mutOps (replacedExecute env s0 [c] now).ops
        = [ApiOp.delete c.fabric c.vrf_name, ApiOp.create c.fabric c.vrf_name]) ∧
    (env.createOk c.fabric c.vrf_name = false →
      ((replacedExecute env s0 [c] now).errors
          = ["Failed to create VRF " ++ c.vrf_name ++ " after deletion: " ++ "Request failed"]) ∧
      ((replacedExecute env s0 [c] now).result.failed = true) ∧
      (∀ r ∈ (replacedExecute env s0 [c] now).st.ctrl,
          ¬(r.1 = c.fabric ∧ r.2.vrfName = some c.vrf_name)) ∧
      (assocFind (replacedExecute env s0 [c] now).st.mgr.cache.cache
          ⟨"vrf", c.fabric, c.vrf_name⟩ = none)) := by
  have hpm : mutOps (populateFabricCaches env s0 [c] now).2 = [] :=
    mutOps_of_reads (populateFabricCaches_ops_reads env s0 [c] now)
  have hrm : mutOps (getCachedV1 env (populateFabricCaches env s0 [c] now).1 c.fabric
      c.vrf_name now).ops = [] :=
    mutOps_of_reads (getCachedV1_ops_reads env (populateFabricCaches env s0 [c] now).1
      c.fabric c.vrf_name now)
  have hdeq := deleteVrfV1_ok env (getCachedV1 env (populateFabricCaches env s0 [c] now).1
      c.fabric c.vrf_name now).st c.fabric c.vrf_name hdel
  simp only [mutOps, ApiOp.isRead] at hpm hrm
  by_cases hco : env.createOk c.fabric c.vrf_name = true
  · -- create accepted by the controller: second conjunct is vacuous
    refine ⟨?_, by intro hfalse; rw [hco] at hfalse; cases hfalse⟩
    by_cases hh : env.handlerOk c.fabric c.vrf_name = true <;>
      by_cases hrd : env.respDataOk c.fabric c.vrf_name = true <;>
      simp [replacedExecute, replacedLoop, hex, hneq, hdeq, createVrfV1, hco, hh, hrd,
        VrfConfig.to_payload, mutOps_append, hpm, hrm, mutOps, ApiOp.isRead]
  · have hcf : env.createOk c.fabric c.vrf_name = false := by
      cases h : env.createOk c.fabric c.vrf_name
      · rfl
      · exact absurd h hco
    have hcr := createVrfV1_fail env
      ⟨ctrlEraseVrf (getCachedV1 env (populateFabricCaches env s0 [c] now).1 c.fabric
          c.vrf_name now).st.ctrl c.fabric c.vrf_name,
        (getCachedV1 env (populateFabricCaches env s0 [c] now).1 c.fabric
          c.vrf_name now).st.mgr.remove_from_cache ⟨"vrf", c.fabric, c.vrf_name⟩⟩
      c.to_payload now hcf
    simp only [VrfConfig.to_payload] at hcr
    constructor
    · simp [replacedExecute, replacedLoop, hex, hneq, hdeq, hcr, VrfConfig.to_payload,
        mutOps_append, hpm, hrm, mutOps, ApiOp.isRead]
    · intro _
      refine ⟨?_, ?_, ?_, ?_⟩
      · simp [replacedExecute, replacedLoop, hex, hneq, hdeq, hcr, VrfConfig.to_payload]
      · simp [replacedExecute, replacedLoop, hex, hneq, hdeq, hcr, VrfConfig.to_payload, finalizeResult]
      · intro r hr
        have hst : (replacedExecute env s0 [c] now).st.ctrl
            = ctrlEraseVrf (getCachedV1 env (populateFabricCaches env s0 [c] now).1 c.fabric
                c.vrf_name now).st.ctrl c.fabric c.vrf_name := by
          simp [replacedExecute, replacedLoop, hex, hneq, hdeq, hcr, VrfConfig.to_payload]
        rw [hst] at hr
        exact ctrlEraseVrf_no_match _ c.fabric c.vrf_name r hr
      · have hst : (replacedExecute env s0 [c] now).st.mgr
            = (getCachedV1 env (populateFabricCaches env s0 [c] now).1 c.fabric
                c.vrf_name now).st.mgr.remove_from_cache ⟨"vrf", c.fabric, c.vrf_name⟩ := by
          simp [replacedExecute, replacedLoop, hex, hneq, hdeq, hcr, VrfConfig.to_payload]
        rw [hst]
        simp only [CacheManager.remove_from_cache, MemoryCache.delete]
        exact assocFind_erase _ _

/-- Witness for C4 (amended): v1 exists with a different vrfId, the delete
succeeds, the create is rejected — one delete then one create on the wire,
and the single combined error names the resource. -/
theorem c4_replaced_delete_then_create_witness :
    (mutOps (replacedExecute { allOkEnv with createOk := fun _ _ => false }
        ⟨[("f1", ⟨some "v1", some 9, some "T", some "TC", some "ET"⟩)],
          ⟨⟨[], some 300⟩, some 300⟩⟩
        [⟨"f1", "v1", 1, "T", "TC", "ET"⟩] 0).ops
      = [ApiOp.delete "f1" "v1", ApiOp.create "f1" "v1"]) ∧
    ((replacedExecute { allOkEnv with createOk := fun _ _ => false }
        ⟨[("f1", ⟨some "v1", some 9, some "T", some "TC", some "ET"⟩)],
          ⟨⟨[], some 300⟩, some 300⟩⟩
        [⟨"f1", "v1", 1, "T", "TC", "ET"⟩] 0).errors
      = ["Failed to create VRF " ++ "v1" ++ " after deletion: " ++ "Request failed"]) := by
  have h := c4_replaced_delete_then_create
    { allOkEnv with createOk := fun _ _ => false }
    ⟨[("f1", ⟨some "v1", some 9, some "T", some "TC", some "ET"⟩)],
      ⟨⟨[], some 300⟩, some 300⟩⟩
    ⟨"f1", "v1", 1, "T", "TC", "ET"⟩
    ⟨some "v1", some 9, some "T", some "TC", some "ET"⟩ 0
    (by decide) (by decide) rfl
  exact ⟨h.1, (h.2 rfl).1⟩

/-! ### VRF API client, v2 (vrf_api_v2.py)

`VrfApiV2` reads go through the same `CacheManager` composition as v1
(`VrfCacheService` wraps the same `CachedResourceService` with
resource type `"vrf"`, and `_fetch_all_vrfs_models` keys records by truthy
`vrf_name` exactly as `_fetch_all_vrfs` does), so the cached-read embedding
is shared.  The mutating calls differ from v1: `_execute_request` catches
every exception and returns an error response, so v2 calls never raise;
cache updates key on the truthy `vrf_name` of the extracted model. -/

/-- `VrfApiV2.get_vrf_cached` — same composition as the v1 cached single
read. -/
def getCachedV2 (env : Env) (s : ApiState) (fabric name : String) (now : Nat) :
    ReadOut (Option VrfData) :=
  getCachedV1 env s fabric name now

/-- `VrfApiV2.get_all_vrfs_cached` — same composition as the v1 cached bulk
read. -/
def getAllCachedV2 (env : Env) (s : ApiState) (fabric : String) (now : Nat) :
    ReadOut (List (String × Option VrfData)) :=
  getAllCachedV1 env s fabric now

/-- `VrfApiV2.create_vrf`: POST; on success the controller stores the
payload and the extracted model is cached when its `vrf_name` is truthy;
never raises. -/
def createVrfV2 (env : Env) (s : ApiState) (p : VrfPayload) (now : Nat) : CallOut :=
  if env.createOk p.fabric p.vrf_name then
    let s1 : ApiState := { s with ctrl := ctrlInsertVrf s.ctrl p.fabric p.vrf_name (payloadData p) }
    let mgr2 := s1.mgr.update_cache ⟨"vrf", p.fabric, p.vrf_name⟩ (some (payloadData p)) none now
    let s2 : ApiState := if p.vrf_name = "" then s1 else { s1 with mgr := mgr2 }
    ⟨true, false, "", s2, [ApiOp.create p.fabric p.vrf_name]⟩
  else
    ⟨false, false, "Request failed", s, [ApiOp.create p.fabric p.vrf_name]⟩

/-- `VrfApiV2.update_vrf`: same flow with the after-update cache write. -/
def updateVrfV2 (env : Env) (s : ApiState) (p : VrfPayload) (now : Nat) : CallOut :=
  if env.updateOk p.fabric p.vrf_name then
    let s1 : ApiState := { s with ctrl := ctrlInsertVrf s.ctrl p.fabric p.vrf_name (payloadData p) }
    let mgr2 := s1.mgr.update_cache ⟨"vrf", p.fabric, p.vrf_name⟩ (some (payloadData p)) none now
    let s2 : ApiState := if p.vrf_name = "" then s1 else { s1 with mgr := mgr2 }
    ⟨true, false, "", s2, [ApiOp.update p.fabric p.vrf_name]⟩
  else
    ⟨false, false, "Request failed", s, [ApiOp.update p.fabric p.vrf_name]⟩

/-- `VrfApiV2.delete_vrf`: DELETE; on success the controller record and the
cache entry are removed. -/
def deleteVrfV2 (env : Env) (s : ApiState) (fabric name : String) : CallOut :=
  deleteVrfV1 env s fabric name

/-! ### Overridden state handlers (overridden.py and overridden_v2.py)

Both classes extend `BaseStateV2` and use the v2 API.  Shared loop state
below; Python `set`/dict iteration is modelled in the deterministic orders
noted at each loop. -/

/-- Accumulated state of an overridden run. -/
structure OvState where
  exn : Bool
  st : ApiState
  ch : Bool
  created : List String
  updated : List String
  deleted : List String
  errors : List String
  ops : List ApiOp
deriving Repr

/-- Delete every existing VRF of `fabric` whose name is not desired
(`Overridden._delete_unwanted_vrfs` inner loop /
`OverriddenV2._process_fabric_override` step 2), iterating the existing
map in its list order. -/
def ovDeleteLoop (env : Env) (fabric : String) (desiredNames : List String) :
    List (String × Option VrfData) → OvState → OvState
  | [], a => a
  | (n, _) :: rest, a =>
    if n ∈ desiredNames then ovDeleteLoop env fabric desiredNames rest a
    else
      let d := deleteVrfV2 env a.st fabric n
      if d.ok then
        ovDeleteLoop env fabric desiredNames rest
          { a with st := d.st, ch := true, deleted := a.deleted ++ [n], ops := a.ops ++ d.ops }
      else
        ovDeleteLoop env fabric desiredNames rest
          { a with
            st := d.st
            errors := a.errors ++ ["Failed to delete unwanted VRF " ++ n ++ ": " ++ d.err]
            ops := a.ops ++ d.ops }

/-- `Overridden._delete_unwanted_vrfs`: per fabric, read the (cached) bulk
map and delete the undesired names. -/
def ovDeleteFabrics (env : Env) (now : Nat) (configs : List VrfConfig) :
    List String → OvState → OvState
  | [], a => a
  | f :: fs, a =>
    let r := getAllCachedV2 env a.st f now
    let desired := (configs.filter (fun c => decide (c.fabric = f))).map (fun c => c.vrf_name)
    ovDeleteFabrics env now configs fs
      (ovDeleteLoop env f desired r.value { a with st := r.st, ops := a.ops ++ r.ops })

/-- `Overridden._process_desired_vrfs`: per config, a cache-aware existence
check, then create / update / no-op (`exists and current_vrf_model` — a
cached `None` falls to the create branch). -/
def ovProcessLoop (env : Env) (now : Nat) : List VrfConfig → OvState → OvState
  | [], a => a
  | c :: cs, a =>
    let r := getCachedV2 env a.st c.fabric c.vrf_name now
    match r.value with
    | some cur =>
      if vrfs_equal_v2 cur c then
        ovProcessLoop env now cs { a with st := r.st, ops := a.ops ++ r.ops }
      else
        let u := updateVrfV2 env r.st c.to_payload now
        if u.ok then
          ovProcessLoop env now cs
            { a with
              st := u.st
              ch := true
              updated := a.updated ++ [c.vrf_name]
              ops := a.ops ++ r.ops ++ u.ops }
        else
          ovProcessLoop env now cs
            { a with
              st := u.st
              errors := a.errors ++ ["Failed to update VRF " ++ c.vrf_name ++ ": " ++ u.err]
              ops := a.ops ++ r.ops ++ u.ops }
    | none =>
      let cr := createVrfV2 env r.st c.to_payload now
      if cr.ok then
        ovProcessLoop env now cs
          { a with
            st := cr.st
            ch := true
            created := a.created ++ [c.vrf_name]
            ops := a.ops ++ r.ops ++ cr.ops }
      else
        ovProcessLoop env now cs
          { a with
            st := cr.st
            errors := a.errors ++ ["Failed to create VRF " ++ c.vrf_name ++ ": " ++ cr.err]
            ops := a.ops ++ r.ops ++ cr.ops }

/-- `Overridden.execute` (overridden.py): pre-warm, delete unwanted FIRST,
then create/update desired, then finalize. -/
def overriddenExecute (env : Env) (s0 : ApiState) (configs : List VrfConfig) (now : Nat) :
    RunOut :=
  let p := populateFabricCaches env s0 configs now
  let a0 : OvState := ⟨false, p.1, false, [], [], [], [], p.2⟩
  let a1 := ovDeleteFabrics env now configs (dedupFabrics configs []) a0
  let a2 := ovProcessLoop env now configs a1
  ⟨false, finalizeResult a2.ch a2.created a2.updated a2.deleted a2.errors, a2.st, a2.ops,
    a2.created, a2.updated, a2.deleted, a2.errors⟩

/-- `OverriddenV2._process_fabric_override` step 1: create/update desired
items against the bulk map captured at the start of the fabric step (not a
fresh existence check).  A map entry holding a cached `None` reaches
`_vrfs_equal`, whose attribute access on `None` raises `AttributeError`
(modelled as `exn`, aborting the run). -/
def ovV2ProcessLoop (env : Env) (now : Nat) (existing : List (String × Option VrfData)) :
    List VrfConfig → OvState → OvState
  | [], a => a
  | c :: cs, a =>
    if a.exn then a
    else
      match strFind existing c.vrf_name with
      | some (some cur) =>
        if vrfs_equal_v2 cur c then ovV2ProcessLoop env now existing cs a
        else
          let u := updateVrfV2 env a.st c.to_payload now
          if u.ok then
            ovV2ProcessLoop env now existing cs
              { a with
                st := u.st
                ch := true
                updated := a.updated ++ [c.vrf_name]
                ops := a.ops ++ u.ops }
          else
            ovV2ProcessLoop env now existing cs
              { a with
                st := u.st
                errors := a.errors ++ ["Failed to update VRF " ++ c.vrf_name ++ ": " ++ u.err]
                ops := a.ops ++ u.ops }
      | some none => { a with exn := true }
      | none =>
        let cr := createVrfV2 env a.st c.to_payload now
        if cr.ok then
          ovV2ProcessLoop env now existing cs
            { a with
              st := cr.st
              ch := true
              created := a.created ++ [c.vrf_name]
              ops := a.ops ++ cr.ops }
        else
          ovV2ProcessLoop env now existing cs
            { a with
              st := cr.st
              errors := a.errors ++ ["Failed to create VRF " ++ c.vrf_name ++ ": " ++ cr.err]
              ops := a.ops ++ cr.ops }

/-- One fabric of `OverriddenV2._process_fabric_override`: bulk read, then
create/update desired, then delete the existing-but-not-desired names. -/
def ovV2FabricStep (env : Env) (now : Nat) (fabricConfigs : List VrfConfig) (fabric : String)
    (a : OvState) : OvState :=
  if a.exn then a
  else
    let r := getAllCachedV2 env a.st fabric now
    let desiredNames := fabricConfigs.map (fun c => c.vrf_name)
    let a1 := ovV2ProcessLoop env now r.value fabricConfigs
      { a with st := r.st, ops := a.ops ++ r.ops }
    if a1.exn then a1 else ovDeleteLoop env fabric desiredNames r.value a1

/-- `OverriddenV2.execute` fabric grouping: fabrics in first-occurrence
order, each with its configs in batch order. -/
def ovV2Fabrics (env : Env) (now : Nat) (configs : List VrfConfig) :
    List String → OvState → OvState
  | [], a => a
  | f :: fs, a =>
    ovV2Fabrics env now configs fs
      (ovV2FabricStep env now (configs.filter (fun c => decide (c.fabric = f))) f a)

/-- `OverriddenV2.execute` (overridden_v2.py): pre-warm, then per fabric
create/update desired FIRST and delete unwanted second. -/
def overriddenV2Execute (env : Env) (s0 : ApiState) (configs : List VrfConfig) (now : Nat) :
    RunOut :=
  let p := populateFabricCaches env s0 configs now
  let a := ovV2Fabrics env now configs (dedupFabrics configs [])
    ⟨false, p.1, false, [], [], [], [], p.2⟩
  if a.exn then ⟨true, ⟨a.ch, false, ""⟩, a.st, a.ops, a.created, a.updated, a.deleted, a.errors⟩
  else
    ⟨false, finalizeResult a.ch a.created a.updated a.deleted a.errors, a.st, a.ops,
      a.created, a.updated, a.deleted, a.errors⟩

/-- The names of one fabric's records on the controller. -/
def ctrlFabricNames (ctrl : Ctrl) (fabric : String) : List String :=
  (ctrlFabric ctrl fabric).filterMap (fun d => d.vrfName)

/-! ### Claim C8 -/

/-- C8: the two overridden implementations are not order-equivalent:
on a fabric with existing {B} and desired {D}, `Overridden` (overridden.py)
deletes the unwanted B first and creates D second, while `OverriddenV2`
(overridden_v2.py) creates D first and deletes B second — the two mutation
traces are different lists. -/
theorem c8_overridden_variants_order_differ :
    (mutOps (overriddenExecute allOkEnv
        ⟨[("f1", ⟨some "B", some 2, some "T", some "TCB", some "ET"⟩)],
          ⟨⟨[], some 300⟩, some 300⟩⟩
        [⟨"f1", "D", 4, "T", "TCD", "ET"⟩] 0).ops
      = [ApiOp.delete "f1" "B", ApiOp.create "f1" "D"]) ∧
    (mutOps (overriddenV2Execute allOkEnv
        ⟨[("f1", ⟨some "B", some 2, some "T", some "TCB", some "ET"⟩)],
          ⟨⟨[], some 300⟩, some 300⟩⟩
        [⟨"f1", "D", 4, "T", "TCD", "ET"⟩] 0).ops
      = [ApiOp.create "f1" "D", ApiOp.delete "f1" "B"]) ∧
    ([ApiOp.delete "f1" "B", ApiOp.create "f1" "D"]
      ≠ [ApiOp.create "f1" "D", ApiOp.delete "f1" "B"]) := by
  decide

/-! ### Claim C2 -/

/-- C2: for a fabric F with existing resources {A, B, C} and desired set
{A, D} (distinct truthy names, fresh cache, healthy controller), BOTH
overridden implementations delete exactly B and C, leave A untouched when
its current record equals the desired configuration (update it otherwise),
create D, and leave fabric F's existing name set exactly {A, D} (it
computes to the list [D, A]).  Deletions appear in the modelled
dict-iteration order (C before B); Python iterates these sets in
unspecified order, so only the set of deletions is meaningful. -/
theorem c2_overridden_completeness
    (F A B C D : String) (idA idD : Nat) (tA tcA etA tD tcD etD : String)
    (dA dB dC : VrfData)
    (hA : dA.vrfName = some A) (hB : dB.vrfName = some B) (hC : dC.vrfName = some C)
    (hAB : A ≠ B) (hAC : A ≠ C) (hBC : B ≠ C)
    (hDA : D ≠ A) (hDB : D ≠ B) (hDC : D ≠ C)
    (hAne : A ≠ "") (hBne : B ≠ "") (hCne : C ≠ "") (hDne : D ≠ "") :
    (mutOps (overriddenExecute allOkEnv
        ⟨[(F, dA), (F, dB), (F, dC)], ⟨⟨[], some 300⟩, some 300⟩⟩
        [⟨F, A, idA, tA, tcA, etA⟩, ⟨F, D, idD, tD, tcD, etD⟩] 0).ops
      = if vrfs_equal_v2 dA ⟨F, A, idA, tA, tcA, etA⟩ then
          [ApiOp.delete F C, ApiOp.delete F B, ApiOp.create F D]
        else
          [ApiOp.delete F C, ApiOp.delete F B, ApiOp.update F A, ApiOp.create F D]) ∧
    (ctrlFabricNames (overriddenExecute allOkEnv
        ⟨[(F, dA), (F, dB), (F, dC)], ⟨⟨[], some 300⟩, some 300⟩⟩
        [⟨F, A, idA, tA, tcA, etA⟩, ⟨F, D, idD, tD, tcD, etD⟩] 0).st.ctrl F = [D, A]) ∧
    (mutOps (overriddenV2Execute allOkEnv
        ⟨[(F, dA), (F, dB), (F, dC)], ⟨⟨[], some 300⟩, some 300⟩⟩
        [⟨F, A, idA, tA, tcA, etA⟩, ⟨F, D, idD, tD, tcD, etD⟩] 0).ops
      = if vrfs_equal_v2 dA ⟨F, A, idA, tA, tcA, etA⟩ then
          [ApiOp.create F D, ApiOp.delete F C, ApiOp.delete F B]
        else
          [ApiOp.update F A, ApiOp.create F D, ApiOp.delete F C, ApiOp.delete F B]) ∧
    (ctrlFabricNames (overriddenV2Execute allOkEnv
        ⟨[(F, dA), (F, dB), (F, dC)], ⟨⟨[], some 300⟩, some 300⟩⟩
        [⟨F, A, idA, tA, tcA, etA⟩, ⟨F, D, idD, tD, tcD, etD⟩] 0).st.ctrl F = [D, A]) := by
  have hBA := hAB.symm
  have hCA := hAC.symm
  have hCB := hBC.symm
  have hAD := hDA.symm
  have hBD := hDB.symm
  have hCD := hDC.symm
  by_cases hEq : vrfs_equal_v2 dA ⟨F, A, idA, tA, tcA, etA⟩ = true <;>
    simp [overriddenExecute, ovDeleteFabrics, ovDeleteLoop, ovProcessLoop,
      overriddenV2Execute, ovV2Fabrics, ovV2FabricStep, ovV2ProcessLoop,
      populateFabricCaches, populateLoop, dedupFabrics,
      getAllCachedV2, getAllCachedV1, getCachedV2, getCachedV1,
      CachedResourceService.get_cached, CacheManager.get_or_fetch,
      CacheManager.get_bulk_or_fetch, CacheManager.update_cache,
      CacheManager.remove_from_cache,
      MemoryCache.get, MemoryCache.set, MemoryCache.delete, MemoryCache.get_bulk,
      MemoryCache.set_bulk, MemoryCache.cleanup_expired, CacheEntry.is_expired, pyOrTTL,
      assocFind, assocErase, strFind, strInsert,
      fetchAllVrfs, fetchSingleVrfFromAll, ctrlFabric, ctrlEraseVrf, ctrlInsertVrf,
      ctrlFabricNames, createVrfV2, updateVrfV2, deleteVrfV2, deleteVrfV1,
      payloadData, VrfConfig.to_payload, exVal, mutOps, ApiOp.isRead, allOkEnv,
      hEq, hA, hB, hC, hAB, hAC, hBC, hDA, hDB, hDC, hAne, hBne, hCne, hDne,
      hBA, hCA, hCB, hAD, hBD, hCD]

/-- Witness for C2: fabric f1 with existing {A, B, C}, desired {A, D}, A
already in the desired shape — the final fabric name set is exactly
{A, D}. -/
theorem c2_overridden_completeness_witness :
    ctrlFabricNames (overriddenExecute allOkEnv
        ⟨[("f1", ⟨some "A", some 1, some "T", some "TCA", some "ET"⟩),
          ("f1", ⟨some "B", some 2, some "T", some "TCB", some "ET"⟩),
          ("f1", ⟨some "C", some 3, some "T", some "TCC", some "ET"⟩)],
          ⟨⟨[], some 300⟩, some 300⟩⟩
        [⟨"f1", "A", 1, "T", "TCA", "ET"⟩, ⟨"f1", "D", 4, "T", "TCD", "ET"⟩] 0).st.ctrl "f1"
      = ["D", "A"] :=
  (c2_overridden_completeness "f1" "A" "B" "C" "D" 1 4 "T" "TCA" "ET" "T" "TCD" "ET"
    ⟨some "A", some 1, some "T", some "TCA", some "ET"⟩
    ⟨some "B", some 2, some "T", some "TCB", some "ET"⟩
    ⟨some "C", some 3, some "T", some "TCC", some "ET"⟩
    rfl rfl rfl (by decide) (by decide) (by decide) (by decide) (by decide) (by decide)
    (by decide) (by decide) (by decide) (by decide)).2.1

/-! ### Claim C10 -/

/-- C10: when the controller accepts the POST, the raw result carries the
response data (so the write-through cache update runs), but the response
handler yields no processed response, v1 `create_vrf` and `update_vrf`
raise `ValueError` instead of returning a `(success, response)` tuple —
and on that path the cache already holds the new resource data when the
exception escapes.  (The RestSend pipeline is not in the sources; its two
observable bits are the `Env` oracle fields `respDataOk` and
`handlerOk`.) -/
theorem c10_create_update_raise_after_cache_write (env : Env) (s : ApiState)
    (p : VrfPayload) (now : Nat)
    (hco : env.createOk p.fabric p.vrf_name = true)
    (huo : env.updateOk p.fabric p.vrf_name = true)
    (hrd : env.respDataOk p.fabric p.vrf_name = true)
    (hh : env.handlerOk p.fabric p.vrf_name = false) :
    ((createVrfV1 env s p now).exn = true ∧
      (∃ e, assocFind (createVrfV1 env s p now).st.mgr.cache.cache
          ⟨"vrf", p.fabric, p.vrf_name⟩ = some e ∧ e.data = some (payloadData p))) ∧
    ((updateVrfV1 env s p now).exn = true ∧
      (∃ e, assocFind (updateVrfV1 env s p now).st.mgr.cache.cache
          ⟨"vrf", p.fabric, p.vrf_name⟩ = some e ∧ e.data = some (payloadData p))) := by
  constructor
  · constructor
    · simp [createVrfV1, hco, hrd, hh]
    · refine ⟨⟨some (payloadData p), now,
          pyOrTTL (pyOrTTL none s.mgr.default_ttl) s.mgr.cache.default_ttl⟩, ?_, rfl⟩
      simp only [createVrfV1, hco, hrd, hh, if_true, if_pos, Bool.false_eq_true, if_false,
        CacheManager.update_cache]
      exact assocFind_set_self _ _ _ _ _
  · constructor
    · simp [updateVrfV1, huo, hrd, hh]
    · refine ⟨⟨some (payloadData p), now,
          pyOrTTL (pyOrTTL none s.mgr.default_ttl) s.mgr.cache.default_ttl⟩, ?_, rfl⟩
      simp only [updateVrfV1, huo, hrd, hh, if_true, if_pos, Bool.false_eq_true, if_false,
        CacheManager.update_cache]
      exact assocFind_set_self _ _ _ _ _

/-- Witness for C10: healthy controller, response data present, processing
pipeline yields no processed response. -/
theorem c10_create_update_raise_after_cache_write_witness :
    (createVrfV1 { allOkEnv with handlerOk := fun _ _ => false }
        ⟨[], ⟨⟨[], some 300⟩, some 300⟩⟩ ⟨"f1", "v1", 1, "T", "TC", "ET"⟩ 0).exn = true :=
  (c10_create_update_raise_after_cache_write
    { allOkEnv with handlerOk := fun _ _ => false }
    ⟨[], ⟨⟨[], some 300⟩, some 300⟩⟩ ⟨"f1", "v1", 1, "T", "TC", "ET"⟩ 0
    rfl rfl rfl rfl).1.1

/-! ### Liveness infrastructure for the read-count claim

At a fixed `now`, an entry stamped `now` can never be expired, so a key
once written with real data stays readable for the rest of the run.
`liveFind` is the store lookup modulo the expiry sweep. -/

theorem fresh_not_expired {V : Type} (v : Option V) (now : Nat) (ttl : Option Nat) :
    (CacheEntry.is_expired (⟨v, now, ttl⟩ : CacheEntry V) now) = false := by
  cases ttl with
  | none => rfl
  | some t =>
    simp only [CacheEntry.is_expired, decide_eq_false_iff_not]
    omega

def liveFind {V : Type} (l : List (CacheKey × CacheEntry V)) (k : CacheKey) (now : Nat) :
    Option (CacheEntry V) :=
  assocFind (l.filter (fun p => ! p.2.is_expired now)) k

theorem get_fst_eq_liveFind {V : Type} (c : MemoryCache V) (k : CacheKey) (now : Nat) :
    (c.get k now).1 = match liveFind c.cache k now with
      | some e => e.data
      | none => none := by
  cases hf : assocFind ((c.cache.filter (fun p => ! p.2.is_expired now))) k with
  | none =>
    simp [MemoryCache.get, MemoryCache.cleanup_expired, liveFind, hf]
  | some e =>
    have hmem := assocFind_some_mem hf
    have hne : ¬ e.is_expired now = true := by
      have := List.mem_filter.mp hmem
      simpa using this.2
    simp [MemoryCache.get, MemoryCache.cleanup_expired, liveFind, hf, hne]

theorem liveFind_cleanup {V : Type} (c : MemoryCache V) (k : CacheKey) (now : Nat) :
    liveFind (c.cleanup_expired now).cache k now = liveFind c.cache k now := by
  simp [liveFind, MemoryCache.cleanup_expired, List.filter_filter]

theorem liveFind_erase_ne {V : Type} (l : List (CacheKey × CacheEntry V)) (k1 k2 : CacheKey)
    (now : Nat) (h : k2 ≠ k1) :
    liveFind (assocErase l k1) k2 now = liveFind l k2 now := by
  have hsym : k1 ≠ k2 := Ne.symm h
  induction l with
  | nil => rfl
  | cons p rest ih =>
    obtain ⟨k, e⟩ := p
    by_cases hk : k = k1
    · subst hk
      by_cases he : e.is_expired now = true <;>
        simp [assocErase, liveFind, assocFind, he, hsym] <;>
        simpa [liveFind] using ih
    · by_cases he : e.is_expired now = true
      · simp [assocErase, liveFind, assocFind, hk, he]
        simpa [liveFind] using ih
      · by_cases hk2 : k = k2 <;>
          simp [assocErase, liveFind, assocFind, hk, he, hk2, h, hsym] <;>
          simpa [liveFind] using ih

theorem liveFind_set {V : Type} (c : MemoryCache V) (k1 k2 : CacheKey) (v : Option V)
    (ttl : Option Nat) (now : Nat) :
    liveFind (c.set k1 v ttl now).cache k2 now
      = if k2 = k1 then some ⟨v, now, pyOrTTL ttl c.default_ttl⟩
        else liveFind c.cache k2 now := by
  by_cases h : k2 = k1
  · subst h
    simp [MemoryCache.set, liveFind, assocFind, fresh_not_expired]
  · have h1 : liveFind (c.set k1 v ttl now).cache k2 now
        = liveFind (assocErase c.cache k1) k2 now := by
      simp [MemoryCache.set, liveFind, assocFind, fresh_not_expired, Ne.symm h]
    rw [h1, liveFind_erase_ne _ _ _ _ h, if_neg h]

theorem liveFind_delete_ne {V : Type} (c : MemoryCache V) (k1 k2 : CacheKey) (now : Nat)
    (h : k2 ≠ k1) :
    liveFind (c.delete k1).cache k2 now = liveFind c.cache k2 now := by
  simp only [MemoryCache.delete]
  exact liveFind_erase_ne _ _ _ _ h

/-- On a hit, `get` returns the swept store. -/
theorem get_hit_snd {V : Type} (c : MemoryCache V) (k : CacheKey) (now : Nat) (d : V)
    (h : (c.get k now).1 = some d) : (c.get k now).2 = c.cleanup_expired now := by
  cases hf : assocFind ((c.cache.filter (fun p => ! p.2.is_expired now))) k with
  | none =>
    rw [get_fst_eq_liveFind] at h
    simp [liveFind, hf] at h
  | some e =>
    have hmem := assocFind_some_mem hf
    have hne : ¬ e.is_expired now = true := by
      have := List.mem_filter.mp hmem
      simpa using this.2
    simp [MemoryCache.get, MemoryCache.cleanup_expired, hf, hne]

/-- A key is live with real data. -/
def liveSome {V : Type} (c : MemoryCache V) (k : CacheKey) (now : Nat) : Prop :=
  ∃ e, liveFind c.cache k now = some e ∧ ∃ d, e.data = some d

theorem get_some_of_liveSome {V : Type} {c : MemoryCache V} {k : CacheKey} {now : Nat}
    (h : liveSome c k now) : ∃ d, (c.get k now).1 = some d := by
  obtain ⟨e, he, d, hd⟩ := h
  refine ⟨d, ?_⟩
  rw [get_fst_eq_liveFind, he]
  simpa using hd

theorem liveSome_of_liveFind_eq {V : Type} {c c' : MemoryCache V} {k : CacheKey} {now : Nat}
    (heq : liveFind c'.cache k now = liveFind c.cache k now) (h : liveSome c k now) :
    liveSome c' k now := by
  obtain ⟨e, he, hd⟩ := h
  exact ⟨e, heq.trans he, hd⟩

theorem strFind_none_forall {A : Type} {l : List (String × A)} {n : String}
    (h : strFind l n = none) : ∀ q ∈ l, q.1 ≠ n := by
  intro q hq
  induction l with
  | nil => simp at hq
  | cons p rest ih =>
    obtain ⟨m, v⟩ := p
    by_cases hm : m = n
    · simp [strFind, hm] at h
    · rcases List.mem_cons.mp hq with hq | hq
      · subst hq; exact hm
      · exact ih (by simpa [strFind, hm] using h) hq

theorem strFind_map_some {A : Type} (l : List (String × A)) (n : String) :
    strFind (l.map (fun p => (p.1, some p.2))) n = (strFind l n).map some := by
  induction l with
  | nil => rfl
  | cons p rest ih =>
    obtain ⟨m, v⟩ := p
    by_cases hm : m = n <;> simp [strFind, hm, ih]

/-- `set_bulk` is a left fold of `set`. -/
theorem set_bulk_eq_foldl {V : Type} (c : MemoryCache V) (fabric resource_type : String)
    (data : List (String × Option V)) (ttl : Option Nat) (now : Nat) :
    MemoryCache.set_bulk c fabric resource_type data ttl now
      = data.foldl (fun acc p => acc.set ⟨resource_type, fabric, p.1⟩ p.2 ttl now) c := rfl

theorem foldl_set_preserve {V : Type} (resource_type fabric : String) (ttl : Option Nat)
    (now : Nat) (n : String) (rest : List (String × Option V))
    (h : ∀ q ∈ rest, q.1 ≠ n) :
    ∀ c : MemoryCache V,
    liveFind ((rest.foldl (fun acc p => acc.set ⟨resource_type, fabric, p.1⟩ p.2 ttl now)
        c)).cache ⟨resource_type, fabric, n⟩ now
      = liveFind c.cache ⟨resource_type, fabric, n⟩ now := by
  induction rest with
  | nil => intro c; rfl
  | cons q rest ih =>
    intro c
    obtain ⟨m, v⟩ := q
    have hm : m ≠ n := h (m, v) (List.mem_cons_self _ _)
    have hk : (⟨resource_type, fabric, n⟩ : CacheKey) ≠ ⟨resource_type, fabric, m⟩ := by
      intro hcon
      exact hm (by injection hcon with _ _ h3; exact h3.symm)
    rw [List.foldl_cons, ih (fun q hq => h q (List.mem_cons_of_mem _ hq)),
      liveFind_set, if_neg hk]

theorem set_bulk_liveSome {V : Type} (fabric resource_type : String) (ttl : Option Nat)
    (now : Nat) (data : List (String × Option V)) (n : String)
    (hv : ∀ q ∈ data, q.2.isSome = true) (hn : (strFind data n).isSome = true) :
    ∀ c : MemoryCache V,
    liveSome (MemoryCache.set_bulk c fabric resource_type data ttl now)
      ⟨resource_type, fabric, n⟩ now := by
  induction data with
  | nil => simp [strFind] at hn
  | cons q rest ih =>
    intro c
    obtain ⟨m, v⟩ := q
    rw [set_bulk_eq_foldl, List.foldl_cons]
    by_cases hm : m = n
    · subst hm
      cases hrest : strFind rest m with
      | some v2 =>
        have := ih (fun q hq => hv q (List.mem_cons_of_mem _ hq))
          (by simp [hrest]) (c.set ⟨resource_type, fabric, m⟩ v ttl now)
        rw [set_bulk_eq_foldl] at this
        exact this
      | none =>
        have hrest' := strFind_none_forall hrest
        have hpres := foldl_set_preserve resource_type fabric ttl now m rest hrest'
          (c.set ⟨resource_type, fabric, m⟩ v ttl now)
        have hset := liveFind_set c ⟨resource_type, fabric, m⟩ ⟨resource_type, fabric, m⟩
          v ttl now
        rw [if_pos rfl] at hset
        have hvs : v.isSome = true := hv (m, v) (List.mem_cons_self _ _)
        obtain ⟨d, hd⟩ := Option.isSome_iff_exists.mp hvs
        exact ⟨⟨v, now, pyOrTTL ttl c.default_ttl⟩, hpres.trans hset, d, by rw [hd]⟩
    · cases hrest : strFind rest n with
      | some v2 =>
        have := ih (fun q hq => hv q (List.mem_cons_of_mem _ hq))
          (by simp [hrest]) (c.set ⟨resource_type, fabric, m⟩ v ttl now)
        rw [set_bulk_eq_foldl] at this
        exact this
      | none =>
        rw [strFind, if_neg hm, hrest] at hn
        simp at hn

theorem dedupFabrics_mem (f : String) (cs : List VrfConfig)
    (hf : ∀ c ∈ cs, c.fabric = f) : ∀ acc, f ∈ acc → dedupFabrics cs acc = acc := by
  induction cs with
  | nil => intro acc _; rfl
  | cons c cs ih =>
    intro acc hmem
    have hc : c.fabric = f := hf c (List.mem_cons_self _ _)
    rw [dedupFabrics, if_pos (hc ▸ hmem)]
    exact ih (fun c2 h2 => hf c2 (List.mem_cons_of_mem _ h2)) acc hmem

/-- A nonempty single-fabric batch references exactly one fabric. -/
theorem dedupFabrics_single (f : String) (cs : List VrfConfig)
    (hf : ∀ c ∈ cs, c.fabric = f) (hne : cs ≠ []) : dedupFabrics cs [] = [f] := by
  cases cs with
  | nil => exact absurd rfl hne
  | cons c cs =>
    have hc : c.fabric = f := hf c (List.mem_cons_self _ _)
    rw [dedupFabrics, if_neg (by simp)]
    simp only [List.nil_append, hc]
    exact dedupFabrics_mem f cs (fun c2 h2 => hf c2 (List.mem_cons_of_mem _ h2)) [f]
      (List.mem_singleton.mpr rfl)

/-- A live key makes the bulk read non-empty. -/
theorem get_bulk_nonempty_of_liveSome {V : Type} (c : MemoryCache V) (fabric rt n : String)
    (now : Nat) (h : liveSome c ⟨rt, fabric, n⟩ now) :
    (c.get_bulk fabric rt now).1.isEmpty = false := by
  obtain ⟨e, he, d, hd⟩ := h
  have hmem : (⟨rt, fabric, n⟩, e) ∈ c.cache.filter (fun p => ! p.2.is_expired now) :=
    assocFind_some_mem he
  have hmem' : ((⟨rt, fabric, n⟩, e) : CacheKey × CacheEntry V)
      ∈ (c.cleanup_expired now).cache := hmem
  have hnex : ¬ e.is_expired now = true := by
    have := List.mem_filter.mp hmem
    simpa using this.2
  have : (n, e.data) ∈ (c.get_bulk fabric rt now).1 := by
    simp only [MemoryCache.get_bulk, List.mem_filterMap]
    refine ⟨(⟨rt, fabric, n⟩, e), hmem', ?_⟩
    rw [if_pos ⟨rfl, rfl, hnex⟩]
  cases hb : (c.get_bulk fabric rt now).1 with
  | nil => rw [hb] at this; simp at this
  | cons x xs => rfl

/-- The bulk read never mutates the controller part and only sweeps the
store. -/
theorem get_bulk_snd {V : Type} (c : MemoryCache V) (fabric rt : String) (now : Nat) :
    (c.get_bulk fabric rt now).2 = c.cleanup_expired now := rfl

/-- Cache-aware single read on a live key: no wire call, the value is
present, the controller is untouched, and every live lookup is
preserved. -/
theorem getCachedV1_hit (env : Env) (s : ApiState) (f n : String) (now : Nat)
    (h : liveSome s.mgr.cache ⟨"vrf", f, n⟩ now) :
    (getCachedV1 env s f n now).ops = [] ∧
    (getCachedV1 env s f n now).value.isSome = true ∧
    (getCachedV1 env s f n now).st.ctrl = s.ctrl ∧
    (getCachedV1 env s f n now).st.mgr.default_ttl = s.mgr.default_ttl ∧
    (∀ k, liveFind (getCachedV1 env s f n now).st.mgr.cache.cache k now
        = liveFind s.mgr.cache.cache k now) := by
  obtain ⟨d, hd⟩ := get_some_of_liveSome h
  have hsnd := get_hit_snd s.mgr.cache ⟨"vrf", f, n⟩ now d hd
  cases hg : s.mgr.cache.get ⟨"vrf", f, n⟩ now with
  | mk a b =>
    rw [hg] at hd hsnd
    simp only at hd hsnd
    subst hd
    subst hsnd
    refine ⟨?_, ?_, ?_, ?_, ?_⟩ <;>
      simp [getCachedV1, CachedResourceService.get_cached, CacheManager.get_or_fetch, hg,
        exVal, liveFind_cleanup]

/-- A successful v1 create (healthy pipeline) succeeds, writes the new data
through to the cache, and preserves every live key. -/
theorem createVrfV1_allOk (s : ApiState) (p : VrfPayload) (now : Nat) :
    (createVrfV1 allOkEnv s p now).ok = true ∧
    (createVrfV1 allOkEnv s p now).exn = false ∧
    (∀ k, liveSome s.mgr.cache k now →
        liveSome (createVrfV1 allOkEnv s p now).st.mgr.cache k now) ∧
    liveSome (createVrfV1 allOkEnv s p now).st.mgr.cache ⟨"vrf", p.fabric, p.vrf_name⟩ now := by
  refine ⟨rfl, rfl, ?_, ?_⟩
  · intro k hk
    simp only [createVrfV1, allOkEnv, if_true, CacheManager.update_cache]
    by_cases h : k = (⟨"vrf", p.fabric, p.vrf_name⟩ : CacheKey)
    · exact ⟨⟨some (payloadData p), now, _⟩, by rw [h, liveFind_set, if_pos rfl],
        payloadData p, rfl⟩
    · refine liveSome_of_liveFind_eq ?_ hk
      rw [liveFind_set, if_neg h]
  · simp only [createVrfV1, allOkEnv, if_true, CacheManager.update_cache]
    exact ⟨⟨some (payloadData p), now, _⟩, by rw [liveFind_set, if_pos rfl],
      payloadData p, rfl⟩

/-- A successful v1 update (healthy pipeline): same cache effects as
create. -/
theorem updateVrfV1_allOk (s : ApiState) (p : VrfPayload) (now : Nat) :
    (updateVrfV1 allOkEnv s p now).ok = true ∧
    (updateVrfV1 allOkEnv s p now).exn = false ∧
    (∀ k, liveSome s.mgr.cache k now →
        liveSome (updateVrfV1 allOkEnv s p now).st.mgr.cache k now) ∧
    liveSome (updateVrfV1 allOkEnv s p now).st.mgr.cache ⟨"vrf", p.fabric, p.vrf_name⟩ now := by
  refine ⟨rfl, rfl, ?_, ?_⟩
  · intro k hk
    simp only [updateVrfV1, allOkEnv, if_true, CacheManager.update_cache]
    by_cases h : k = (⟨"vrf", p.fabric, p.vrf_name⟩ : CacheKey)
    · exact ⟨⟨some (payloadData p), now, _⟩, by rw [h, liveFind_set, if_pos rfl],
        payloadData p, rfl⟩
    · refine liveSome_of_liveFind_eq ?_ hk
      rw [liveFind_set, if_neg h]
  · simp only [updateVrfV1, allOkEnv, if_true, CacheManager.update_cache]
    exact ⟨⟨some (payloadData p), now, _⟩, by rw [liveFind_set, if_pos rfl],
      payloadData p, rfl⟩

/-- A successful v2 update: the cache write is skipped for a falsy name,
but every live key is preserved either way. -/
theorem updateVrfV2_allOk (s : ApiState) (p : VrfPayload) (now : Nat) :
    (updateVrfV2 allOkEnv s p now).ok = true ∧
    (∀ k, liveSome s.mgr.cache k now →
        liveSome (updateVrfV2 allOkEnv s p now).st.mgr.cache k now) := by
  refine ⟨by simp [updateVrfV2, allOkEnv], ?_⟩
  intro k hk
  by_cases hn : p.vrf_name = ""
  · simpa [updateVrfV2, allOkEnv, hn] using hk
  · have hred : (updateVrfV2 allOkEnv s p now).st.mgr.cache
        = s.mgr.cache.set ⟨"vrf", p.fabric, p.vrf_name⟩ (some (payloadData p))
            (pyOrTTL none s.mgr.default_ttl) now := by
      simp [updateVrfV2, allOkEnv, hn, CacheManager.update_cache]
    rw [hred]
    by_cases h : k = (⟨"vrf", p.fabric, p.vrf_name⟩ : CacheKey)
    · exact ⟨⟨some (payloadData p), now, _⟩, by rw [h, liveFind_set, if_pos rfl],
        payloadData p, rfl⟩
    · exact liveSome_of_liveFind_eq (by rw [liveFind_set, if_neg h]) hk

/-- A successful delete removes one key and preserves every other live
key. -/
theorem deleteVrfV1_allOk_preserve (s : ApiState) (f n : String)
    (k : CacheKey) (hk : k ≠ ⟨"vrf", f, n⟩) (h : liveSome s.mgr.cache k now) :
    liveSome (deleteVrfV1 allOkEnv s f n).st.mgr.cache k now := by
  simp only [deleteVrfV1, allOkEnv, if_true, CacheManager.remove_from_cache]
  refine liveSome_of_liveFind_eq ?_ h
  exact liveFind_delete_ne _ _ _ _ hk

/-- Pre-warming a fresh cache for a nonempty single-fabric batch: exactly
one bulk read, the controller untouched, and every desired item present in
the bulk response becomes a live cache key. -/
theorem populate_single (env : Env) (s0 : ApiState) (configs : List VrfConfig) (f : String)
    (now : Nat) (hf : ∀ c ∈ configs, c.fabric = f) (hne : configs ≠ [])
    (hcache : s0.mgr.cache.cache = []) :
    (populateFabricCaches env s0 configs now).2 = [ApiOp.readAll f] ∧
    (populateFabricCaches env s0 configs now).1.ctrl = s0.ctrl ∧
    (∀ c ∈ configs, (strFind (fetchAllVrfs env s0.ctrl f) c.vrf_name).isSome = true →
      liveSome (populateFabricCaches env s0 configs now).1.mgr.cache
        ⟨"vrf", c.fabric, c.vrf_name⟩ now) := by
  have hd := dedupFabrics_single f configs hf hne
  refine ⟨?_, ?_, ?_⟩
  · simp [populateFabricCaches, hd, populateLoop, getAllCachedV1,
      CacheManager.get_bulk_or_fetch, MemoryCache.get_bulk, MemoryCache.cleanup_expired,
      hcache]
  · simp [populateFabricCaches, hd, populateLoop, getAllCachedV1,
      CacheManager.get_bulk_or_fetch, MemoryCache.get_bulk, MemoryCache.cleanup_expired,
      hcache]
  · intro c hc hex
    have hfc : c.fabric = f := hf c hc
    simp only [populateFabricCaches, hd, populateLoop, getAllCachedV1,
      CacheManager.get_bulk_or_fetch, MemoryCache.get_bulk, MemoryCache.cleanup_expired,
      hcache, List.filter_nil, List.filterMap_nil, List.isEmpty_nil, if_true, hfc]
    apply set_bulk_liveSome
    · intro q hq
      obtain ⟨p, _, hp⟩ := List.mem_map.mp hq
      rw [← hp]
      rfl
    · rw [strFind_map_some]
      simpa using hex

theorem updateVrfV1_ops (env : Env) (s : ApiState) (p : VrfPayload) (now : Nat) :
    (updateVrfV1 env s p now).ops = [ApiOp.update p.fabric p.vrf_name] := by
  by_cases hc : env.updateOk p.fabric p.vrf_name = true
  · by_cases hh : env.handlerOk p.fabric p.vrf_name = true <;>
      by_cases hr : env.respDataOk p.fabric p.vrf_name = true <;>
      simp [updateVrfV1, hc, hh, hr]
  · simp [updateVrfV1, hc]

theorem deleteVrfV1_ops (env : Env) (s : ApiState) (f n : String) :
    (deleteVrfV1 env s f n).ops = [ApiOp.delete f n] := by
  by_cases hc : env.deleteOk f n = true <;> simp [deleteVrfV1, hc]

theorem createVrfV2_ops (env : Env) (s : ApiState) (p : VrfPayload) (now : Nat) :
    (createVrfV2 env s p now).ops = [ApiOp.create p.fabric p.vrf_name] := by
  by_cases hc : env.createOk p.fabric p.vrf_name = true
  · by_cases hn : p.vrf_name = ""
    · rw [hn] at hc; simp [createVrfV2, hc, hn]
    · simp [createVrfV2, hc, hn]
  · simp [createVrfV2, hc]

theorem updateVrfV2_ops (env : Env) (s : ApiState) (p : VrfPayload) (now : Nat) :
    (updateVrfV2 env s p now).ops = [ApiOp.update p.fabric p.vrf_name] := by
  by_cases hc : env.updateOk p.fabric p.vrf_name = true
  · by_cases hn : p.vrf_name = ""
    · rw [hn] at hc; simp [updateVrfV2, hc, hn]
    · simp [updateVrfV2, hc, hn]
  · simp [updateVrfV2, hc]

theorem countReads_single_mut (f n : String) :
    countReads [ApiOp.create f n] = 0 ∧ countReads [ApiOp.update f n] = 0 ∧
    countReads [ApiOp.delete f n] = 0 := by
  simp [countReads, ApiOp.isRead]

/-- The merged per-item loop over a batch of live keys performs no
additional read: every item hits the pre-warmed cache. -/
theorem mergedLoop_reads (now : Nat) (cs : List VrfConfig) :
    ∀ (s : ApiState) (ch : Bool) (ops : List ApiOp) (cr up er : List String),
    (∀ c ∈ cs, liveSome s.mgr.cache ⟨"vrf", c.fabric, c.vrf_name⟩ now) →
    countReads (mergedLoop allOkEnv now cs s ch ops cr up er).ops = countReads ops ∧
    ∃ t, (mergedLoop allOkEnv now cs s ch ops cr up er).ops = ops ++ t := by
  induction cs with
  | nil =>
    intro s ch ops cr up er _
    exact ⟨rfl, [], by simp [mergedLoop]⟩
  | cons c cs ih =>
    intro s ch ops cr up er hlive
    have hc := hlive c (List.mem_cons_self _ _)
    have hhit := getCachedV1_hit allOkEnv s c.fabric c.vrf_name now hc
    obtain ⟨d, hd⟩ := Option.isSome_iff_exists.mp hhit.2.1
    have hlive' : ∀ c2 ∈ cs,
        liveSome (getCachedV1 allOkEnv s c.fabric c.vrf_name now).st.mgr.cache
          ⟨"vrf", c2.fabric, c2.vrf_name⟩ now :=
      fun c2 h2 => liveSome_of_liveFind_eq (hhit.2.2.2.2 _)
        (hlive c2 (List.mem_cons_of_mem _ h2))
    by_cases heq : vrfs_equal d c = true
    · have hrec := ih (getCachedV1 allOkEnv s c.fabric c.vrf_name now).st ch
        (ops ++ (getCachedV1 allOkEnv s c.fabric c.vrf_name now).ops) cr up er hlive'
      constructor
      · simp only [mergedLoop, hd, heq, if_pos]
        rw [hrec.1, countReads_append, hhit.1]
        simp [countReads]
      · obtain ⟨t, ht⟩ := hrec.2
        refine ⟨(getCachedV1 allOkEnv s c.fabric c.vrf_name now).ops ++ t, ?_⟩
        simp only [mergedLoop, hd, heq, if_pos]
        rw [ht, List.append_assoc]
    · have hu := updateVrfV1_allOk (getCachedV1 allOkEnv s c.fabric c.vrf_name now).st
        c.to_payload now
      have hlive'' : ∀ c2 ∈ cs,
          liveSome (updateVrfV1 allOkEnv
            (getCachedV1 allOkEnv s c.fabric c.vrf_name now).st c.to_payload
            now).st.mgr.cache ⟨"vrf", c2.fabric, c2.vrf_name⟩ now :=
        fun c2 h2 => hu.2.2.1 _ (hlive' c2 h2)
      have hrec := ih _ true
        (ops ++ (getCachedV1 allOkEnv s c.fabric c.vrf_name now).ops
          ++ (updateVrfV1 allOkEnv (getCachedV1 allOkEnv s c.fabric c.vrf_name now).st
            c.to_payload now).ops) cr (up ++ [c.vrf_name]) er hlive''
      constructor
      · simp only [mergedLoop, hd, heq, if_neg, Bool.false_eq_true, if_false, hu.1, hu.2.1,
          if_true]
        rw [hrec.1, countReads_append, countReads_append, hhit.1, updateVrfV1_ops]
        simp [countReads, ApiOp.isRead]
      · obtain ⟨t, ht⟩ := hrec.2
        refine ⟨(getCachedV1 allOkEnv s c.fabric c.vrf_name now).ops
          ++ ((updateVrfV1 allOkEnv (getCachedV1 allOkEnv s c.fabric c.vrf_name now).st
            c.to_payload now).ops ++ t), ?_⟩
        simp only [mergedLoop, hd, heq, if_neg, Bool.false_eq_true, if_false, hu.1, hu.2.1,
          if_true]
        rw [ht]
        simp [List.append_assoc]

theorem deleteVrfV2_ops (env : Env) (s : ApiState) (f n : String) :
    (deleteVrfV2 env s f n).ops = [ApiOp.delete f n] := by
  simp [deleteVrfV2, deleteVrfV1_ops]

/-- The replaced per-item loop over a batch of live keys performs no
additional read: hits come from the pre-warmed cache, and the
delete-then-create pair re-caches the key it replaced. -/
theorem replacedLoop_reads (now : Nat) (cs : List VrfConfig) :
    ∀ (s : ApiState) (ch : Bool) (ops : List ApiOp) (cr rep er : List String),
    (∀ c ∈ cs, liveSome s.mgr.cache ⟨"vrf", c.fabric, c.vrf_name⟩ now) →
    countReads (replacedLoop allOkEnv now cs s ch ops cr rep er).ops = countReads ops ∧
    ∃ t, (replacedLoop allOkEnv now cs s ch ops cr rep er).ops = ops ++ t := by
  induction cs with
  | nil =>
    intro s ch ops cr rep er _
    exact ⟨rfl, [], by simp [replacedLoop]⟩
  | cons c cs ih =>
    intro s ch ops cr rep er hlive
    have hc := hlive c (List.mem_cons_self _ _)
    have hhit := getCachedV1_hit allOkEnv s c.fabric c.vrf_name now hc
    obtain ⟨d, hd⟩ := Option.isSome_iff_exists.mp hhit.2.1
    have hlive' : ∀ c2 ∈ cs,
        liveSome (getCachedV1 allOkEnv s c.fabric c.vrf_name now).st.mgr.cache
          ⟨"vrf", c2.fabric, c2.vrf_name⟩ now :=
      fun c2 h2 => liveSome_of_liveFind_eq (hhit.2.2.2.2 _)
        (hlive c2 (List.mem_cons_of_mem _ h2))
    by_cases heq : vrfs_equal d c = true
    · have hrec := ih (getCachedV1 allOkEnv s c.fabric c.vrf_name now).st ch
        (ops ++ (getCachedV1 allOkEnv s c.fabric c.vrf_name now).ops) cr rep er hlive'
      constructor
      · simp only [replacedLoop, hd, heq, if_pos]
        rw [hrec.1, countReads_append, hhit.1]
        simp [countReads]
      · obtain ⟨t, ht⟩ := hrec.2
        refine ⟨(getCachedV1 allOkEnv s c.fabric c.vrf_name now).ops ++ t, ?_⟩
        simp only [replacedLoop, hd, heq, if_pos]
        rw [ht, List.append_assoc]
    · have hdok : (deleteVrfV1 allOkEnv (getCachedV1 allOkEnv s c.fabric c.vrf_name now).st
          c.fabric c.vrf_name).ok = true := rfl
      have hcex : (createVrfV1 allOkEnv (deleteVrfV1 allOkEnv
          (getCachedV1 allOkEnv s c.fabric c.vrf_name now).st c.fabric c.vrf_name).st
          c.to_payload now).exn = false := rfl
      have hcok : (createVrfV1 allOkEnv (deleteVrfV1 allOkEnv
          (getCachedV1 allOkEnv s c.fabric c.vrf_name now).st c.fabric c.vrf_name).st
          c.to_payload now).ok = true := rfl
      have hcr := createVrfV1_allOk (deleteVrfV1 allOkEnv
        (getCachedV1 allOkEnv s c.fabric c.vrf_name now).st c.fabric c.vrf_name).st
        c.to_payload now
      have hlive'' : ∀ c2 ∈ cs,
          liveSome (createVrfV1 allOkEnv (deleteVrfV1 allOkEnv
            (getCachedV1 allOkEnv s c.fabric c.vrf_name now).st c.fabric c.vrf_name).st
            c.to_payload now).st.mgr.cache ⟨"vrf", c2.fabric, c2.vrf_name⟩ now := by
        intro c2 h2
        by_cases hk : (⟨"vrf", c2.fabric, c2.vrf_name⟩ : CacheKey)
            = ⟨"vrf", c.fabric, c.vrf_name⟩
        · rw [hk]
          exact hcr.2.2.2
        · exact hcr.2.2.1 _ (deleteVrfV1_allOk_preserve _ c.fabric c.vrf_name _ hk
            (hlive' c2 h2))
      have hrec := ih _ true
        (ops ++ (getCachedV1 allOkEnv s c.fabric c.vrf_name now).ops
          ++ (deleteVrfV1 allOkEnv (getCachedV1 allOkEnv s c.fabric c.vrf_name now).st
            c.fabric c.vrf_name).ops
          ++ (createVrfV1 allOkEnv (deleteVrfV1 allOkEnv
            (getCachedV1 allOkEnv s c.fabric c.vrf_name now).st c.fabric c.vrf_name).st
            c.to_payload now).ops) cr (rep ++ [c.vrf_name]) er hlive''
      constructor
      · simp only [replacedLoop, hd, heq, if_neg, Bool.false_eq_true, if_false, hdok,
          hcex, hcok, if_true]
        rw [hrec.1, countReads_append, countReads_append, countReads_append, hhit.1,
          deleteVrfV1_ops, createVrfV1_ops]
        simp [countReads, ApiOp.isRead]
      · obtain ⟨t, ht⟩ := hrec.2
        refine ⟨(getCachedV1 allOkEnv s c.fabric c.vrf_name now).ops
          ++ ((deleteVrfV1 allOkEnv (getCachedV1 allOkEnv s c.fabric c.vrf_name now).st
              c.fabric c.vrf_name).ops
            ++ ((createVrfV1 allOkEnv (deleteVrfV1 allOkEnv
              (getCachedV1 allOkEnv s c.fabric c.vrf_name now).st c.fabric c.vrf_name).st
              c.to_payload now).ops ++ t)), ?_⟩
        simp only [replacedLoop, hd, heq, if_neg, Bool.false_eq_true, if_false, hdok,
          hcex, hcok, if_true]
        rw [ht]
        simp [List.append_assoc]

/-- The unwanted-deletion loop issues only deletes. -/
theorem ovDeleteLoop_reads (env : Env) (fabric : String) (desired : List String)
    (bulk : List (String × Option VrfData)) :
    ∀ a : OvState,
    countReads (ovDeleteLoop env fabric desired bulk a).ops = countReads a.ops ∧
    ∃ t, (ovDeleteLoop env fabric desired bulk a).ops = a.ops ++ t := by
  induction bulk with
  | nil => intro a; exact ⟨rfl, [], by simp [ovDeleteLoop]⟩
  | cons q rest ih =>
    intro a
    obtain ⟨n, v⟩ := q
    by_cases hmem : n ∈ desired
    · simp only [ovDeleteLoop]
      rw [if_pos hmem]
      exact ih a
    · by_cases hok : (deleteVrfV2 env a.st fabric n).ok = true
      · have hrec := ih { a with
          st := (deleteVrfV2 env a.st fabric n).st
          ch := true
          deleted := a.deleted ++ [n]
          ops := a.ops ++ (deleteVrfV2 env a.st fabric n).ops }
        constructor
        · simp only [ovDeleteLoop]
          rw [if_neg hmem, if_pos hok]
          rw [hrec.1]
          simp only [countReads_append, deleteVrfV2_ops]
          simp [countReads, ApiOp.isRead]
        · obtain ⟨t, ht⟩ := hrec.2
          refine ⟨(deleteVrfV2 env a.st fabric n).ops ++ t, ?_⟩
          simp only [ovDeleteLoop]
          rw [if_neg hmem, if_pos hok]
          rw [ht]
          simp [List.append_assoc]
      · have hrec := ih { a with
          st := (deleteVrfV2 env a.st fabric n).st
          errors := a.errors
            ++ ["Failed to delete unwanted VRF " ++ n ++ ": " ++ (deleteVrfV2 env a.st fabric n).err]
          ops := a.ops ++ (deleteVrfV2 env a.st fabric n).ops }
        constructor
        · simp only [ovDeleteLoop]
          rw [if_neg hmem, if_neg hok]
          rw [hrec.1]
          simp only [countReads_append, deleteVrfV2_ops]
          simp [countReads, ApiOp.isRead]
        · obtain ⟨t, ht⟩ := hrec.2
          refine ⟨(deleteVrfV2 env a.st fabric n).ops ++ t, ?_⟩
          simp only [ovDeleteLoop]
          rw [if_neg hmem, if_neg hok]
          rw [ht]
          simp [List.append_assoc]

/-- Deleting only undesired names preserves every live desired key. -/
theorem ovDeleteLoop_preserve (now : Nat) (fabric : String) (desired : List String)
    (bulk : List (String × Option VrfData)) :
    ∀ (a : OvState) (k : CacheKey), k.identifier ∈ desired →
    liveSome a.st.mgr.cache k now →
    liveSome (ovDeleteLoop allOkEnv fabric desired bulk a).st.mgr.cache k now := by
  induction bulk with
  | nil => intro a k _ h; exact h
  | cons q rest ih =>
    intro a k hk h
    obtain ⟨n, v⟩ := q
    by_cases hmem : n ∈ desired
    · simp only [ovDeleteLoop]
      rw [if_pos hmem]
      exact ih a k hk h
    · have hok : (deleteVrfV2 allOkEnv a.st fabric n).ok = true := rfl
      simp only [ovDeleteLoop]
      rw [if_neg hmem, if_pos hok]
      refine ih _ k hk ?_
      have hkne : k ≠ (⟨"vrf", fabric, n⟩ : CacheKey) := by
        intro hcon
        rw [hcon] at hk
        exact hmem hk
      exact deleteVrfV1_allOk_preserve a.st fabric n k hkne h

/-- The overridden (v1 file) desired-processing loop over live keys issues
no reads. -/
theorem ovProcessLoop_reads (now : Nat) (cs : List VrfConfig) :
    ∀ a : OvState,
    (∀ c ∈ cs, liveSome a.st.mgr.cache ⟨"vrf", c.fabric, c.vrf_name⟩ now) →
    countReads (ovProcessLoop allOkEnv now cs a).ops = countReads a.ops ∧
    ∃ t, (ovProcessLoop allOkEnv now cs a).ops = a.ops ++ t := by
  induction cs with
  | nil => intro a _; exact ⟨rfl, [], by simp [ovProcessLoop]⟩
  | cons c cs ih =>
    intro a hlive
    have hc := hlive c (List.mem_cons_self _ _)
    have hhit := getCachedV1_hit allOkEnv a.st c.fabric c.vrf_name now hc
    obtain ⟨d, hd⟩ := Option.isSome_iff_exists.mp hhit.2.1
    have hd2 : (getCachedV2 allOkEnv a.st c.fabric c.vrf_name now).value = some d := hd
    have hlive' : ∀ c2 ∈ cs,
        liveSome (getCachedV2 allOkEnv a.st c.fabric c.vrf_name now).st.mgr.cache
          ⟨"vrf", c2.fabric, c2.vrf_name⟩ now :=
      fun c2 h2 => liveSome_of_liveFind_eq (hhit.2.2.2.2 _)
        (hlive c2 (List.mem_cons_of_mem _ h2))
    by_cases heq : vrfs_equal_v2 d c = true
    · have hrec := ih { a with
        st := (getCachedV2 allOkEnv a.st c.fabric c.vrf_name now).st
        ops := a.ops ++ (getCachedV2 allOkEnv a.st c.fabric c.vrf_name now).ops } hlive'
      constructor
      · simp only [ovProcessLoop, hd2, heq, if_pos]
        rw [hrec.1]
        simp only [countReads_append]
        have h0 : countReads (getCachedV2 allOkEnv a.st c.fabric c.vrf_name now).ops = 0 := by
          have := hhit.1
          simp only [getCachedV2]
          rw [this]
          rfl
        omega
      · obtain ⟨t, ht⟩ := hrec.2
        refine ⟨(getCachedV2 allOkEnv a.st c.fabric c.vrf_name now).ops ++ t, ?_⟩
        simp only [ovProcessLoop, hd2, heq, if_pos]
        rw [ht]
        simp [List.append_assoc]
    · have hu := updateVrfV2_allOk (getCachedV2 allOkEnv a.st c.fabric c.vrf_name now).st
        c.to_payload now
      have hlive'' : ∀ c2 ∈ cs,
          liveSome (updateVrfV2 allOkEnv
            (getCachedV2 allOkEnv a.st c.fabric c.vrf_name now).st c.to_payload
            now).st.mgr.cache ⟨"vrf", c2.fabric, c2.vrf_name⟩ now :=
        fun c2 h2 => hu.2 _ (hlive' c2 h2)
      have hrec := ih { a with
        st := (updateVrfV2 allOkEnv (getCachedV2 allOkEnv a.st c.fabric c.vrf_name now).st
          c.to_payload now).st
        ch := true
        updated := a.updated ++ [c.vrf_name]
        ops := a.ops ++ (getCachedV2 allOkEnv a.st c.fabric c.vrf_name now).ops
          ++ (updateVrfV2 allOkEnv (getCachedV2 allOkEnv a.st c.fabric c.vrf_name now).st
            c.to_payload now).ops } hlive''
      constructor
      · simp only [ovProcessLoop, hd2, heq, if_neg, Bool.false_eq_true, if_false, hu.1,
          if_true]
        rw [hrec.1]
        have h00 : (getCachedV2 allOkEnv a.st c.fabric c.vrf_name now).ops = [] := by
          simp only [getCachedV2]
          exact hhit.1
        simp [countReads_append, updateVrfV2_ops, h00, countReads, ApiOp.isRead]
      · obtain ⟨t, ht⟩ := hrec.2
        refine ⟨(getCachedV2 allOkEnv a.st c.fabric c.vrf_name now).ops
          ++ ((updateVrfV2 allOkEnv (getCachedV2 allOkEnv a.st c.fabric c.vrf_name now).st
            c.to_payload now).ops ++ t), ?_⟩
        simp only [ovProcessLoop, hd2, heq, if_neg, Bool.false_eq_true, if_false, hu.1,
          if_true]
        rw [ht]
        simp [List.append_assoc]

/-- On a non-empty bulk hit, `get_bulk_or_fetch` returns the cached
entries as-is: no fetch, the store merely swept. -/
theorem get_bulk_or_fetch_hit {V : Type} (m : CacheManager V) (fabric rt : String)
    (ff : List (String × V)) (ttl : Option Nat) (now : Nat)
    (h : (m.cache.get_bulk fabric rt now).1.isEmpty = false) :
    m.get_bulk_or_fetch fabric rt ff ttl now =
      ⟨(m.cache.get_bulk fabric rt now).1,
       { m with cache := (m.cache.get_bulk fabric rt now).2 }, 0⟩ := by
  rcases hgb : m.cache.get_bulk fabric rt now with ⟨cached, c1⟩
  rw [hgb] at h
  simp only [CacheManager.get_bulk_or_fetch, hgb, h, Bool.false_eq_true, if_false]

/-- Cached bulk read on a warm fabric: no wire call, the controller is
untouched, and every live lookup is preserved. -/
theorem getAllCachedV1_hit (env : Env) (s : ApiState) (f n : String) (now : Nat)
    (h : liveSome s.mgr.cache ⟨"vrf", f, n⟩ now) :
    (getAllCachedV1 env s f now).ops = [] ∧
    (getAllCachedV1 env s f now).st.ctrl = s.ctrl ∧
    ∀ k, liveFind (getAllCachedV1 env s f now).st.mgr.cache.cache k now
      = liveFind s.mgr.cache.cache k now := by
  have hne := get_bulk_nonempty_of_liveSome s.mgr.cache f "vrf" n now h
  have hq := get_bulk_or_fetch_hit s.mgr f "vrf" (fetchAllVrfs env s.ctrl f) none now hne
  refine ⟨?_, ?_, fun k => ?_⟩
  · simp [getAllCachedV1, hq]
  · simp [getAllCachedV1, hq]
  · simp only [getAllCachedV1, hq]
    rw [get_bulk_snd]
    exact liveFind_cleanup s.mgr.cache k now

/-- The overridden-v2 desired-processing loop works off the captured bulk
map: it issues create and update calls only, never a read, in any
environment. -/
theorem ovV2ProcessLoop_reads (env : Env) (now : Nat)
    (bulk : List (String × Option VrfData)) (cs : List VrfConfig) :
    ∀ a : OvState,
    countReads (ovV2ProcessLoop env now bulk cs a).ops = countReads a.ops ∧
    ∃ t, (ovV2ProcessLoop env now bulk cs a).ops = a.ops ++ t := by
  induction cs with
  | nil => intro a; exact ⟨rfl, [], by simp [ovV2ProcessLoop]⟩
  | cons c cs ih =>
    intro a
    by_cases hexn : a.exn = true
    · constructor
      · simp only [ovV2ProcessLoop]
        rw [if_pos hexn]
      · refine ⟨[], ?_⟩
        simp only [ovV2ProcessLoop]
        rw [if_pos hexn]
        simp
    · rcases hfind : strFind bulk c.vrf_name with _ | ov
      · by_cases hok : (createVrfV2 env a.st c.to_payload now).ok = true
        · have hrec := ih { a with
            st := (createVrfV2 env a.st c.to_payload now).st
            ch := true
            created := a.created ++ [c.vrf_name]
            ops := a.ops ++ (createVrfV2 env a.st c.to_payload now).ops }
          constructor
          · simp only [ovV2ProcessLoop, hfind]
            rw [if_neg hexn, if_pos hok, hrec.1]
            simp [countReads_append, createVrfV2_ops, countReads, ApiOp.isRead]
          · obtain ⟨t, ht⟩ := hrec.2
            refine ⟨(createVrfV2 env a.st c.to_payload now).ops ++ t, ?_⟩
            simp only [ovV2ProcessLoop, hfind]
            rw [if_neg hexn, if_pos hok, ht]
            simp [List.append_assoc]
        · have hrec := ih { a with
            st := (createVrfV2 env a.st c.to_payload now).st
            errors := a.errors ++ ["Failed to create VRF " ++ c.vrf_name ++ ": "
              ++ (createVrfV2 env a.st c.to_payload now).err]
            ops := a.ops ++ (createVrfV2 env a.st c.to_payload now).ops }
          constructor
          · simp only [ovV2ProcessLoop, hfind]
            rw [if_neg hexn, if_neg hok, hrec.1]
            simp [countReads_append, createVrfV2_ops, countReads, ApiOp.isRead]
          · obtain ⟨t, ht⟩ := hrec.2
            refine ⟨(createVrfV2 env a.st c.to_payload now).ops ++ t, ?_⟩
            simp only [ovV2ProcessLoop, hfind]
            rw [if_neg hexn, if_neg hok, ht]
            simp [List.append_assoc]
      · cases ov with
        | none =>
          constructor
          · simp only [ovV2ProcessLoop, hfind]
            rw [if_neg hexn]
          · refine ⟨[], ?_⟩
            simp only [ovV2ProcessLoop, hfind]
            rw [if_neg hexn]
            simp
        | some cur =>
          by_cases heq : vrfs_equal_v2 cur c = true
          · constructor
            · simp only [ovV2ProcessLoop, hfind]
              rw [if_neg hexn, if_pos heq]
              exact (ih a).1
            · obtain ⟨t, ht⟩ := (ih a).2
              refine ⟨t, ?_⟩
              simp only [ovV2ProcessLoop, hfind]
              rw [if_neg hexn, if_pos heq]
              exact ht
          · by_cases hok : (updateVrfV2 env a.st c.to_payload now).ok = true
            · have hrec := ih { a with
                st := (updateVrfV2 env a.st c.to_payload now).st
                ch := true
                updated := a.updated ++ [c.vrf_name]
                ops := a.ops ++ (updateVrfV2 env a.st c.to_payload now).ops }
              constructor
              · simp only [ovV2ProcessLoop, hfind]
                rw [if_neg hexn, if_neg heq, if_pos hok, hrec.1]
                simp [countReads_append, updateVrfV2_ops, countReads, ApiOp.isRead]
              · obtain ⟨t, ht⟩ := hrec.2
                refine ⟨(updateVrfV2 env a.st c.to_payload now).ops ++ t, ?_⟩
                simp only [ovV2ProcessLoop, hfind]
                rw [if_neg hexn, if_neg heq, if_pos hok, ht]
                simp [List.append_assoc]
            · have hrec := ih { a with
                st := (updateVrfV2 env a.st c.to_payload now).st
                errors := a.errors ++ ["Failed to update VRF " ++ c.vrf_name ++ ": "
                  ++ (updateVrfV2 env a.st c.to_payload now).err]
                ops := a.ops ++ (updateVrfV2 env a.st c.to_payload now).ops }
              constructor
              · simp only [ovV2ProcessLoop, hfind]
                rw [if_neg hexn, if_neg heq, if_neg hok, hrec.1]
                simp [countReads_append, updateVrfV2_ops, countReads, ApiOp.isRead]
              · obtain ⟨t, ht⟩ := hrec.2
                refine ⟨(updateVrfV2 env a.st c.to_payload now).ops ++ t, ?_⟩
                simp only [ovV2ProcessLoop, hfind]
                rw [if_neg hexn, if_neg heq, if_neg hok, ht]
                simp [List.append_assoc]

/-- `Merged.execute` on a single-fabric batch of existing items over an
empty cache: the pre-warm bulk fetch is the only read, and it leads the
trace. -/
theorem mergedExecute_one_read (s0 : ApiState) (configs : List VrfConfig)
    (f : String) (now : Nat)
    (hf : ∀ c ∈ configs, c.fabric = f) (hne : configs ≠ [])
    (hcache : s0.mgr.cache.cache = [])
    (hexist : ∀ c ∈ configs,
      (strFind (fetchAllVrfs allOkEnv s0.ctrl f) c.vrf_name).isSome = true) :
    countReads (mergedExecute allOkEnv s0 configs now).ops = 1 ∧
    (mergedExecute allOkEnv s0 configs now).ops.head? = some (ApiOp.readAll f) := by
  have hp := populate_single allOkEnv s0 configs f now hf hne hcache
  have hlive : ∀ c ∈ configs,
      liveSome (populateFabricCaches allOkEnv s0 configs now).1.mgr.cache
        ⟨"vrf", c.fabric, c.vrf_name⟩ now :=
    fun c hc => hp.2.2 c hc (hexist c hc)
  have hm := mergedLoop_reads now configs (populateFabricCaches allOkEnv s0 configs now).1
    false (populateFabricCaches allOkEnv s0 configs now).2 [] [] [] hlive
  have hmops : (mergedExecute allOkEnv s0 configs now).ops
      = (mergedLoop allOkEnv now configs (populateFabricCaches allOkEnv s0 configs now).1
          false (populateFabricCaches allOkEnv s0 configs now).2 [] [] []).ops := by
    simp only [mergedExecute]
    by_cases hx : (mergedLoop allOkEnv now configs
        (populateFabricCaches allOkEnv s0 configs now).1 false
        (populateFabricCaches allOkEnv s0 configs now).2 [] [] []).exn = true
    · rw [if_pos hx]
    · rw [if_neg hx]
  obtain ⟨t, ht⟩ := hm.2
  constructor
  · rw [hmops, hm.1, hp.1]
    rfl
  · rw [hmops, ht, hp.1]
    rfl

/-- `Replaced.execute` on a single-fabric batch of existing items over an
empty cache: the pre-warm bulk fetch is the only read, and it leads the
trace. -/
theorem replacedExecute_one_read (s0 : ApiState) (configs : List VrfConfig)
    (f : String) (now : Nat)
    (hf : ∀ c ∈ configs, c.fabric = f) (hne : configs ≠ [])
    (hcache : s0.mgr.cache.cache = [])
    (hexist : ∀ c ∈ configs,
      (strFind (fetchAllVrfs allOkEnv s0.ctrl f) c.vrf_name).isSome = true) :
    countReads (replacedExecute allOkEnv s0 configs now).ops = 1 ∧
    (replacedExecute allOkEnv s0 configs now).ops.head? = some (ApiOp.readAll f) := by
  have hp := populate_single allOkEnv s0 configs f now hf hne hcache
  have hlive : ∀ c ∈ configs,
      liveSome (populateFabricCaches allOkEnv s0 configs now).1.mgr.cache
        ⟨"vrf", c.fabric, c.vrf_name⟩ now :=
    fun c hc => hp.2.2 c hc (hexist c hc)
  have hm := replacedLoop_reads now configs (populateFabricCaches allOkEnv s0 configs now).1
    false (populateFabricCaches allOkEnv s0 configs now).2 [] [] [] hlive
  have hmops : (replacedExecute allOkEnv s0 configs now).ops
      = (replacedLoop allOkEnv now configs (populateFabricCaches allOkEnv s0 configs now).1
          false (populateFabricCaches allOkEnv s0 configs now).2 [] [] []).ops := by
    simp only [replacedExecute]
    by_cases hx : (replacedLoop allOkEnv now configs
        (populateFabricCaches allOkEnv s0 configs now).1 false
        (populateFabricCaches allOkEnv s0 configs now).2 [] [] []).exn = true
    · rw [if_pos hx]
    · rw [if_neg hx]
  obtain ⟨t, ht⟩ := hm.2
  constructor
  · rw [hmops, hm.1, hp.1]
    rfl
  · rw [hmops, ht, hp.1]
    rfl

/-- `Overridden.execute` (delete-first) on a single-fabric batch of
existing items over an empty cache: the pre-warm bulk fetch is the only
read — the delete sweep and the desired-processing loop both run off the
warm cache. -/
theorem overriddenExecute_one_read (s0 : ApiState) (configs : List VrfConfig)
    (f : String) (now : Nat)
    (hf : ∀ c ∈ configs, c.fabric = f) (hne : configs ≠ [])
    (hcache : s0.mgr.cache.cache = [])
    (hexist : ∀ c ∈ configs,
      (strFind (fetchAllVrfs allOkEnv s0.ctrl f) c.vrf_name).isSome = true) :
    countReads (overriddenExecute allOkEnv s0 configs now).ops = 1 ∧
    (overriddenExecute allOkEnv s0 configs now).ops.head? = some (ApiOp.readAll f) := by
  have hp := populate_single allOkEnv s0 configs f now hf hne hcache
  have hlive : ∀ c ∈ configs,
      liveSome (populateFabricCaches allOkEnv s0 configs now).1.mgr.cache
        ⟨"vrf", c.fabric, c.vrf_name⟩ now :=
    fun c hc => hp.2.2 c hc (hexist c hc)
  have hd := dedupFabrics_single f configs hf hne
  have hfilter : configs.filter (fun c => decide (c.fabric = f)) = configs :=
    List.filter_eq_self.mpr (fun c hc => by simp [hf c hc])
  obtain ⟨c0, hc0⟩ : ∃ c0, c0 ∈ configs := by
    cases configs with
    | nil => exact absurd rfl hne
    | cons c cs => exact ⟨c, List.mem_cons_self _ _⟩
  have hlive0 : liveSome (populateFabricCaches allOkEnv s0 configs now).1.mgr.cache
      ⟨"vrf", f, c0.vrf_name⟩ now := by
    have h1 := hlive c0 hc0
    rwa [hf c0 hc0] at h1
  have hga := getAllCachedV1_hit allOkEnv (populateFabricCaches allOkEnv s0 configs now).1
    f c0.vrf_name now hlive0
  have hlive1 : ∀ c ∈ configs,
      liveSome (getAllCachedV1 allOkEnv (populateFabricCaches allOkEnv s0 configs now).1
        f now).st.mgr.cache ⟨"vrf", c.fabric, c.vrf_name⟩ now :=
    fun c hc => liveSome_of_liveFind_eq (hga.2.2 _) (hlive c hc)
  have hpres : ∀ c ∈ configs,
      liveSome (ovDeleteLoop allOkEnv f (List.map (fun c => c.vrf_name) configs)
        (getAllCachedV1 allOkEnv (populateFabricCaches allOkEnv s0 configs now).1 f now).value
        ⟨false,
         (getAllCachedV1 allOkEnv (populateFabricCaches allOkEnv s0 configs now).1 f now).st,
         false, [], [], [], [],
         (populateFabricCaches allOkEnv s0 configs now).2
           ++ (getAllCachedV1 allOkEnv
                (populateFabricCaches allOkEnv s0 configs now).1 f now).ops⟩).st.mgr.cache
        ⟨"vrf", c.fabric, c.vrf_name⟩ now :=
    fun c hc => ovDeleteLoop_preserve now f (List.map (fun c => c.vrf_name) configs)
      (getAllCachedV1 allOkEnv (populateFabricCaches allOkEnv s0 configs now).1 f now).value
      ⟨false,
       (getAllCachedV1 allOkEnv (populateFabricCaches allOkEnv s0 configs now).1 f now).st,
       false, [], [], [], [],
       (populateFabricCaches allOkEnv s0 configs now).2
         ++ (getAllCachedV1 allOkEnv
              (populateFabricCaches allOkEnv s0 configs now).1 f now).ops⟩
      ⟨"vrf", c.fabric, c.vrf_name⟩ (List.mem_map_of_mem _ hc) (hlive1 c hc)
  have hproc := ovProcessLoop_reads now configs
    (ovDeleteLoop allOkEnv f (List.map (fun c => c.vrf_name) configs)
      (getAllCachedV1 allOkEnv (populateFabricCaches allOkEnv s0 configs now).1 f now).value
      ⟨false,
       (getAllCachedV1 allOkEnv (populateFabricCaches allOkEnv s0 configs now).1 f now).st,
       false, [], [], [], [],
       (populateFabricCaches allOkEnv s0 configs now).2
         ++ (getAllCachedV1 allOkEnv
              (populateFabricCaches allOkEnv s0 configs now).1 f now).ops⟩) hpres
  have hdel := ovDeleteLoop_reads allOkEnv f (List.map (fun c => c.vrf_name) configs)
    (getAllCachedV1 allOkEnv (populateFabricCaches allOkEnv s0 configs now).1 f now).value
    ⟨false,
     (getAllCachedV1 allOkEnv (populateFabricCaches allOkEnv s0 configs now).1 f now).st,
     false, [], [], [], [],
     (populateFabricCaches allOkEnv s0 configs now).2
       ++ (getAllCachedV1 allOkEnv
            (populateFabricCaches allOkEnv s0 configs now).1 f now).ops⟩
  obtain ⟨t2, ht2⟩ := hproc.2
  obtain ⟨t1, ht1⟩ := hdel.2
  constructor
  · simp only [overriddenExecute, ovDeleteFabrics, hd, hfilter, getAllCachedV2]
    rw [hproc.1, hdel.1]
    simp only [hp.1, hga.1]
    rfl
  · simp only [overriddenExecute, ovDeleteFabrics, hd, hfilter, getAllCachedV2]
    rw [ht2, ht1]
    simp [hp.1, hga.1]

/-- `OverriddenV2.execute` (create-first) on a single-fabric batch of
existing items over an empty cache: the pre-warm bulk fetch is the only
read — the desired-processing loop works off the captured bulk map and the
delete sweep off the warm cache. -/
theorem overriddenV2Execute_one_read (s0 : ApiState) (configs : List VrfConfig)
    (f : String) (now : Nat)
    (hf : ∀ c ∈ configs, c.fabric = f) (hne : configs ≠ [])
    (hcache : s0.mgr.cache.cache = [])
    (hexist : ∀ c ∈ configs,
      (strFind (fetchAllVrfs allOkEnv s0.ctrl f) c.vrf_name).isSome = true) :
    countReads (overriddenV2Execute allOkEnv s0 configs now).ops = 1 ∧
    (overriddenV2Execute allOkEnv s0 configs now).ops.head? = some (ApiOp.readAll f) := by
  have hp := populate_single allOkEnv s0 configs f now hf hne hcache
  have hlive : ∀ c ∈ configs,
      liveSome (populateFabricCaches allOkEnv s0 configs now).1.mgr.cache ⟨"vrf", c.fabric, c.vrf_name⟩ now :=
    fun c hc => hp.2.2 c hc (hexist c hc)
  have hd := dedupFabrics_single f configs hf hne
  have hfilter : configs.filter (fun c => decide (c.fabric = f)) = configs :=
    List.filter_eq_self.mpr (fun c hc => by simp [hf c hc])
  obtain ⟨c0, hc0⟩ : ∃ c0, c0 ∈ configs := by
    cases configs with
    | nil => exact absurd rfl hne
    | cons c cs => exact ⟨c, List.mem_cons_self _ _⟩
  have hlive0 : liveSome (populateFabricCaches allOkEnv s0 configs now).1.mgr.cache ⟨"vrf", f, c0.vrf_name⟩ now := by
    have h1 := hlive c0 hc0
    rwa [hf c0 hc0] at h1
  have hga := getAllCachedV1_hit allOkEnv (populateFabricCaches allOkEnv s0 configs now).1 f c0.vrf_name now hlive0
  have hv2 := ovV2ProcessLoop_reads allOkEnv now (getAllCachedV1 allOkEnv (populateFabricCaches allOkEnv s0 configs now).1 f now).value configs ⟨false, (getAllCachedV1 allOkEnv (populateFabricCaches allOkEnv s0 configs now).1 f now).st, false, [], [], [], [], (populateFabricCaches allOkEnv s0 configs now).2 ++ (getAllCachedV1 allOkEnv (populateFabricCaches allOkEnv s0 configs now).1 f now).ops⟩
  have hdel := ovDeleteLoop_reads allOkEnv f (List.map (fun c => c.vrf_name) configs) (getAllCachedV1 allOkEnv (populateFabricCaches allOkEnv s0 configs now).1 f now).value (ovV2ProcessLoop allOkEnv now (getAllCachedV1 allOkEnv (populateFabricCaches allOkEnv s0 configs now).1 f now).value configs ⟨false, (getAllCachedV1 allOkEnv (populateFabricCaches allOkEnv s0 configs now).1 f now).st, false, [], [], [], [], (populateFabricCaches allOkEnv s0 configs now).2 ++ (getAllCachedV1 allOkEnv (populateFabricCaches allOkEnv s0 configs now).1 f now).ops⟩)
  have hA1count : countReads (ovV2ProcessLoop allOkEnv now (getAllCachedV1 allOkEnv (populateFabricCaches allOkEnv s0 configs now).1 f now).value configs ⟨false, (getAllCachedV1 allOkEnv (populateFabricCaches allOkEnv s0 configs now).1 f now).st, false, [], [], [], [], (populateFabricCaches allOkEnv s0 configs now).2 ++ (getAllCachedV1 allOkEnv (populateFabricCaches allOkEnv s0 configs now).1 f now).ops⟩).ops = 1 := by
    rw [hv2.1]
    simp only [hp.1, hga.1]
    rfl
  have hA1head : (ovV2ProcessLoop allOkEnv now (getAllCachedV1 allOkEnv (populateFabricCaches allOkEnv s0 configs now).1 f now).value configs ⟨false, (getAllCachedV1 allOkEnv (populateFabricCaches allOkEnv s0 configs now).1 f now).st, false, [], [], [], [], (populateFabricCaches allOkEnv s0 configs now).2 ++ (getAllCachedV1 allOkEnv (populateFabricCaches allOkEnv s0 configs now).1 f now).ops⟩).ops.head? = some (ApiOp.readAll f) := by
    obtain ⟨t1, ht1⟩ := hv2.2
    rw [ht1]
    simp [hp.1, hga.1]
  have hDhead : (ovDeleteLoop allOkEnv f (List.map (fun c => c.vrf_name) configs) (getAllCachedV1 allOkEnv (populateFabricCaches allOkEnv s0 configs now).1 f now).value (ovV2ProcessLoop allOkEnv now (getAllCachedV1 allOkEnv (populateFabricCaches allOkEnv s0 configs now).1 f now).value configs ⟨false, (getAllCachedV1 allOkEnv (populateFabricCaches allOkEnv s0 configs now).1 f now).st, false, [], [], [], [], (populateFabricCaches allOkEnv s0 configs now).2 ++ (getAllCachedV1 allOkEnv (populateFabricCaches allOkEnv s0 configs now).1 f now).ops⟩)).ops.head? = some (ApiOp.readAll f) := by
    obtain ⟨t2, ht2⟩ := hdel.2
    rw [ht2]
    obtain ⟨t1, ht1⟩ := hv2.2
    rw [ht1]
    simp [hp.1, hga.1]
  constructor
  · simp only [overriddenV2Execute, ovV2Fabrics, hd, hfilter, ovV2FabricStep,
      getAllCachedV2, Bool.false_eq_true, if_false]
    by_cases hx : (ovV2ProcessLoop allOkEnv now (getAllCachedV1 allOkEnv (populateFabricCaches allOkEnv s0 configs now).1 f now).value configs ⟨false, (getAllCachedV1 allOkEnv (populateFabricCaches allOkEnv s0 configs now).1 f now).st, false, [], [], [], [], (populateFabricCaches allOkEnv s0 configs now).2 ++ (getAllCachedV1 allOkEnv (populateFabricCaches allOkEnv s0 configs now).1 f now).ops⟩).exn = true
    · rw [if_pos hx, if_pos hx]
      exact hA1count
    · rw [if_neg hx]
      by_cases hy : (ovDeleteLoop allOkEnv f (List.map (fun c => c.vrf_name) configs) (getAllCachedV1 allOkEnv (populateFabricCaches allOkEnv s0 configs now).1 f now).value (ovV2ProcessLoop allOkEnv now (getAllCachedV1 allOkEnv (populateFabricCaches allOkEnv s0 configs now).1 f now).value configs ⟨false, (getAllCachedV1 allOkEnv (populateFabricCaches allOkEnv s0 configs now).1 f now).st, false, [], [], [], [], (populateFabricCaches allOkEnv s0 configs now).2 ++ (getAllCachedV1 allOkEnv (populateFabricCaches allOkEnv s0 configs now).1 f now).ops⟩)).exn = true
      · rw [if_pos hy]
        show countReads (ovDeleteLoop allOkEnv f (List.map (fun c => c.vrf_name) configs) (getAllCachedV1 allOkEnv (populateFabricCaches allOkEnv s0 configs now).1 f now).value (ovV2ProcessLoop allOkEnv now (getAllCachedV1 allOkEnv (populateFabricCaches allOkEnv s0 configs now).1 f now).value configs ⟨false, (getAllCachedV1 allOkEnv (populateFabricCaches allOkEnv s0 configs now).1 f now).st, false, [], [], [], [], (populateFabricCaches allOkEnv s0 configs now).2 ++ (getAllCachedV1 allOkEnv (populateFabricCaches allOkEnv s0 configs now).1 f now).ops⟩)).ops = 1
        rw [hdel.1]
        exact hA1count
      · rw [if_neg hy]
        show countReads (ovDeleteLoop allOkEnv f (List.map (fun c => c.vrf_name) configs) (getAllCachedV1 allOkEnv (populateFabricCaches allOkEnv s0 configs now).1 f now).value (ovV2ProcessLoop allOkEnv now (getAllCachedV1 allOkEnv (populateFabricCaches allOkEnv s0 configs now).1 f now).value configs ⟨false, (getAllCachedV1 allOkEnv (populateFabricCaches allOkEnv s0 configs now).1 f now).st, false, [], [], [], [], (populateFabricCaches allOkEnv s0 configs now).2 ++ (getAllCachedV1 allOkEnv (populateFabricCaches allOkEnv s0 configs now).1 f now).ops⟩)).ops = 1
        rw [hdel.1]
        exact hA1count
  · simp only [overriddenV2Execute, ovV2Fabrics, hd, hfilter, ovV2FabricStep,
      getAllCachedV2, Bool.false_eq_true, if_false]
    by_cases hx : (ovV2ProcessLoop allOkEnv now (getAllCachedV1 allOkEnv (populateFabricCaches allOkEnv s0 configs now).1 f now).value configs ⟨false, (getAllCachedV1 allOkEnv (populateFabricCaches allOkEnv s0 configs now).1 f now).st, false, [], [], [], [], (populateFabricCaches allOkEnv s0 configs now).2 ++ (getAllCachedV1 allOkEnv (populateFabricCaches allOkEnv s0 configs now).1 f now).ops⟩).exn = true
    · rw [if_pos hx, if_pos hx]
      exact hA1head
    · rw [if_neg hx]
      by_cases hy : (ovDeleteLoop allOkEnv f (List.map (fun c => c.vrf_name) configs) (getAllCachedV1 allOkEnv (populateFabricCaches allOkEnv s0 configs now).1 f now).value (ovV2ProcessLoop allOkEnv now (getAllCachedV1 allOkEnv (populateFabricCaches allOkEnv s0 configs now).1 f now).value configs ⟨false, (getAllCachedV1 allOkEnv (populateFabricCaches allOkEnv s0 configs now).1 f now).st, false, [], [], [], [], (populateFabricCaches allOkEnv s0 configs now).2 ++ (getAllCachedV1 allOkEnv (populateFabricCaches allOkEnv s0 configs now).1 f now).ops⟩)).exn = true
      · rw [if_pos hy]
        show (ovDeleteLoop allOkEnv f (List.map (fun c => c.vrf_name) configs) (getAllCachedV1 allOkEnv (populateFabricCaches allOkEnv s0 configs now).1 f now).value (ovV2ProcessLoop allOkEnv now (getAllCachedV1 allOkEnv (populateFabricCaches allOkEnv s0 configs now).1 f now).value configs ⟨false, (getAllCachedV1 allOkEnv (populateFabricCaches allOkEnv s0 configs now).1 f now).st, false, [], [], [], [], (populateFabricCaches allOkEnv s0 configs now).2 ++ (getAllCachedV1 allOkEnv (populateFabricCaches allOkEnv s0 configs now).1 f now).ops⟩)).ops.head? = some (ApiOp.readAll f)
        exact hDhead
      · rw [if_neg hy]
        show (ovDeleteLoop allOkEnv f (List.map (fun c => c.vrf_name) configs) (getAllCachedV1 allOkEnv (populateFabricCaches allOkEnv s0 configs now).1 f now).value (ovV2ProcessLoop allOkEnv now (getAllCachedV1 allOkEnv (populateFabricCaches allOkEnv s0 configs now).1 f now).value configs ⟨false, (getAllCachedV1 allOkEnv (populateFabricCaches allOkEnv s0 configs now).1 f now).st, false, [], [], [], [], (populateFabricCaches allOkEnv s0 configs now).2 ++ (getAllCachedV1 allOkEnv (populateFabricCaches allOkEnv s0 configs now).1 f now).ops⟩)).ops.head? = some (ApiOp.readAll f)
        exact hDhead

/-! ### Claim C5 (amended) -/

/-- C5 (amended): the merged, replaced, and both overridden handlers
pre-warm each referenced fabric cache with one bulk fetch before per-item
processing; on a single-fabric batch whose items all exist on the
controller, starting from an empty cache over a reliable transport, each
of the four handlers issues exactly one read in total, and the trace
starts with that bulk read of the batch fabric.  (The query handler does
not share this pre-warm: it issues one read per item.) -/
theorem c5_prewarm_single_bulk_read (s0 : ApiState) (configs : List VrfConfig)
    (f : String) (now : Nat)
    (hf : ∀ c ∈ configs, c.fabric = f) (hne : configs ≠ [])
    (hcache : s0.mgr.cache.cache = [])
    (hexist : ∀ c ∈ configs,
      (strFind (fetchAllVrfs allOkEnv s0.ctrl f) c.vrf_name).isSome = true) :
    (countReads (mergedExecute allOkEnv s0 configs now).ops = 1 ∧
      (mergedExecute allOkEnv s0 configs now).ops.head? = some (ApiOp.readAll f)) ∧
    (countReads (replacedExecute allOkEnv s0 configs now).ops = 1 ∧
      (replacedExecute allOkEnv s0 configs now).ops.head? = some (ApiOp.readAll f)) ∧
    (countReads (overriddenExecute allOkEnv s0 configs now).ops = 1 ∧
      (overriddenExecute allOkEnv s0 configs now).ops.head? = some (ApiOp.readAll f)) ∧
    (countReads (overriddenV2Execute allOkEnv s0 configs now).ops = 1 ∧
      (overriddenV2Execute allOkEnv s0 configs now).ops.head? = some (ApiOp.readAll f)) :=
  ⟨mergedExecute_one_read s0 configs f now hf hne hcache hexist,
   replacedExecute_one_read s0 configs f now hf hne hcache hexist,
   overriddenExecute_one_read s0 configs f now hf hne hcache hexist,
   overriddenV2Execute_one_read s0 configs f now hf hne hcache hexist⟩

/-- Witness for the amended C5: a one-item batch whose VRF exists on the
controller, over an empty cache. -/
theorem c5_prewarm_single_bulk_read_witness :
    ((∀ c ∈ [(⟨"f1", "v1", 1, "T", "TC", "ET"⟩ : VrfConfig)], c.fabric = "f1") ∧
      [(⟨"f1", "v1", 1, "T", "TC", "ET"⟩ : VrfConfig)] ≠ [] ∧
      (⟨[("f1", payloadData (VrfConfig.to_payload ⟨"f1", "v1", 1, "T", "TC", "ET"⟩))],
        ⟨⟨[], some 300⟩, some 300⟩⟩ : ApiState).mgr.cache.cache = [] ∧
      (∀ c ∈ [(⟨"f1", "v1", 1, "T", "TC", "ET"⟩ : VrfConfig)],
        (strFind (fetchAllVrfs allOkEnv (⟨[("f1", payloadData (VrfConfig.to_payload ⟨"f1", "v1", 1, "T", "TC", "ET"⟩))],
        ⟨⟨[], some 300⟩, some 300⟩⟩ : ApiState).ctrl "f1")
          c.vrf_name).isSome = true)) ∧
    countReads (mergedExecute allOkEnv ⟨[("f1", payloadData (VrfConfig.to_payload ⟨"f1", "v1", 1, "T", "TC", "ET"⟩))],
        ⟨⟨[], some 300⟩, some 300⟩⟩
      [⟨"f1", "v1", 1, "T", "TC", "ET"⟩] 0).ops = 1 ∧
    (overriddenV2Execute allOkEnv ⟨[("f1", payloadData (VrfConfig.to_payload ⟨"f1", "v1", 1, "T", "TC", "ET"⟩))],
        ⟨⟨[], some 300⟩, some 300⟩⟩
      [⟨"f1", "v1", 1, "T", "TC", "ET"⟩] 0).ops.head? = some (ApiOp.readAll "f1") := by
  refine ⟨⟨by decide, by decide, rfl, by decide⟩, ?_, ?_⟩
  · exact (c5_prewarm_single_bulk_read ⟨[("f1", payloadData (VrfConfig.to_payload ⟨"f1", "v1", 1, "T", "TC", "ET"⟩))],
        ⟨⟨[], some 300⟩, some 300⟩⟩
      [⟨"f1", "v1", 1, "T", "TC", "ET"⟩] "f1" 0
      (by decide) (by decide) rfl (by decide)).1.1
  · exact (c5_prewarm_single_bulk_read ⟨[("f1", payloadData (VrfConfig.to_payload ⟨"f1", "v1", 1, "T", "TC", "ET"⟩))],
        ⟨⟨[], some 300⟩, some 300⟩⟩
      [⟨"f1", "v1", 1, "T", "TC", "ET"⟩] "f1" 0
      (by decide) (by decide) rfl (by decide)).2.2.2.2

end Ndfc
